import Mathlib

/-!
# Landed-cost pricing engine (`server/utils/PricingEngine.js`)

A shallow embedding of the `PricingEngine` class and a verification of the
numeric contract stated for it.

## Number model

JavaScript numbers are modelled by `JSNum`: a finite value is an exact
rational, and the three non-finite values `Infinity`, `-Infinity` and `NaN`
are kept, because the engine divides by its inputs without checking them and
JavaScript division by zero does not throw. What is not modelled: the binary
rounding of each IEEE-754 operation, overflow of a finite value to infinity,
and the sign of zero (the only divisors in the engine are the quantity, the
case pack size and the literal 100, never a computed zero).

Numbers that enter the engine (product fields, quantity, rate table, exchange
rate) are finite, hence rationals.

## Strings

`getPricingSummary` formats prices with `toFixed(2)`, which is defined on the
value of the number and is modelled in full, and renders the lead time in a
template literal, which goes through `Number::toString`; the latter depends on
the binary representation and is a parameter of the model.
-/

namespace PricingEngine

/-! ## JavaScript numbers -/

/-- A JavaScript number: a finite value, or one of the non-finite values. -/
inductive JSNum where
  | fin (q : ℚ)
  | pinf
  | ninf
  | nan
  deriving DecidableEq

namespace JSNum

/-- The JavaScript `+` on numbers. -/
def add : JSNum → JSNum → JSNum
  | fin a, fin b => fin (a + b)
  | nan, _ => nan
  | _, nan => nan
  | pinf, ninf => nan
  | ninf, pinf => nan
  | pinf, _ => pinf
  | _, pinf => pinf
  | ninf, _ => ninf
  | _, ninf => ninf

/-- Unary minus. -/
def neg : JSNum → JSNum
  | fin a => fin (-a)
  | pinf => ninf
  | ninf => pinf
  | nan => nan

/-- The JavaScript binary `-`. -/
def sub (a b : JSNum) : JSNum := add a (neg b)

/-- An infinity of the sign of `q` times the sign given by `pos`;
`Infinity * 0` is `NaN`. -/
def infTimes (pos : Bool) (q : ℚ) : JSNum :=
  if q = 0 then nan
  else if (0 < q) = pos then pinf else ninf

/-- The JavaScript `*` on numbers. -/
def mul : JSNum → JSNum → JSNum
  | fin a, fin b => fin (a * b)
  | nan, _ => nan
  | _, nan => nan
  | pinf, fin b => infTimes true b
  | fin a, pinf => infTimes true a
  | ninf, fin b => infTimes false b
  | fin a, ninf => infTimes false a
  | pinf, pinf => pinf
  | ninf, ninf => pinf
  | pinf, ninf => ninf
  | ninf, pinf => ninf

/-- The JavaScript `/` on numbers: dividing by zero gives an infinity of the
sign of the dividend, and `0 / 0` is `NaN`. -/
def div : JSNum → JSNum → JSNum
  | fin a, fin b =>
      if b = 0 then
        (if a = 0 then nan else if 0 < a then pinf else ninf)
      else fin (a / b)
  | nan, _ => nan
  | _, nan => nan
  | fin _, pinf => fin 0
  | fin _, ninf => fin 0
  | pinf, fin b => if 0 ≤ b then pinf else ninf
  | ninf, fin b => if 0 ≤ b then ninf else pinf
  | pinf, pinf => nan
  | pinf, ninf => nan
  | ninf, pinf => nan
  | ninf, ninf => nan

/-- The two-argument `Math.max`. -/
def max : JSNum → JSNum → JSNum
  | fin a, fin b => fin (Max.max a b)
  | nan, _ => nan
  | _, nan => nan
  | pinf, _ => pinf
  | _, pinf => pinf
  | ninf, b => b
  | a, ninf => a

/-- The function `Math.ceil`. -/
def ceil : JSNum → JSNum
  | fin a => fin (⌈a⌉ : ℤ)
  | x => x

/-- The function `Math.round`: the nearest integer, a half rounding towards
positive infinity. -/
def round : JSNum → JSNum
  | fin a => fin (⌊a + 1 / 2⌋ : ℤ)
  | x => x

/-- Whether the number is finite. -/
def isFinite : JSNum → Bool
  | fin _ => true
  | _ => false

end JSNum

/-- Rounding to 2 decimal places as the engine writes it:
`Math.round(x * 100) / 100`. -/
def round2 (x : JSNum) : JSNum :=
  JSNum.div (JSNum.round (JSNum.mul x (.fin 100))) (.fin 100)

/-! ## Data model -/

/-- The cost fields of `product.excelStructure` that the engine reads. Each
field is an object with a numeric `value`; `none` is an absent field. -/
structure ExcelStructure where
  casePack : Option ℚ
  weight : Option ℚ
  price : Option ℚ
  setupCost : Option ℚ
  duties : Option ℚ
  profitOverride : Option ℚ
  profitMargin : Option ℚ
  prodLeadTime : Option ℚ
  deriving DecidableEq

/-- A product as the engine sees it. -/
structure Product where
  name : String
  excelStructure : ExcelStructure
  deriving DecidableEq

/-- One entry of the shipping rate table. -/
structure ShippingRate where
  rate : ℚ
  minimum : ℚ
  deriving DecidableEq

/-- The state that the constructor sets up. -/
structure Engine where
  shippingRates : List (String × ShippingRate)
  exchangeRate : ℚ
  deriving DecidableEq

/-- The engine built by `constructor()`. -/
def engine : Engine where
  shippingRates :=
    [("DHL", { rate := 15 / 100, minimum := 25 }),
     ("SEA", { rate := 8 / 100, minimum := 15 })]
  exchangeRate := 202 / 100

/-- Errors thrown by the engine. -/
inductive JSError where
  /-- The `new Error(...)` thrown by `calculateShippingCost`, with its message. -/
  | error (message : String)
  /-- Reading `.value` of an absent field. -/
  | typeError
  deriving DecidableEq

/-- The object returned by `calculateLandedCost`. -/
structure PricingResult where
  cartons : JSNum
  totalWeight : JSNum
  shippingCostUSD : JSNum
  dutiesAmountUSD : JSNum
  setupCostUSD : JSNum
  landedCostPerUnitUSD : JSNum
  unitPriceUSD : JSNum
  unitPriceBBD : JSNum
  totalPriceBBD : JSNum
  totalGrossProfitBBD : JSNum
  exchangeRate : JSNum
  profitMargin : JSNum
  profitOverride : JSNum
  deriving DecidableEq

/-! ## Property lookup in the rate table -/

/-- The property names that every plain object inherits from
`Object.prototype`. -/
def objectPrototypeKeys : List String :=
  ["constructor", "__defineGetter__", "__defineSetter__", "hasOwnProperty",
   "__lookupGetter__", "__lookupSetter__", "isPrototypeOf",
   "propertyIsEnumerable", "toString", "valueOf", "__proto__",
   "toLocaleString"]

/-- The value of `this.shippingRates[shippingMethod]`. -/
inductive RateLookup where
  /-- An entry of the table itself. -/
  | own (r : ShippingRate)
  /-- A member inherited from `Object.prototype`: a truthy object without
  `rate` or `minimum`. -/
  | inherited
  /-- No such property: the lookup gives `undefined`. -/
  | undefined
  deriving DecidableEq

/-- The lookup `this.shippingRates[shippingMethod]`: own entries first, then
the prototype chain. -/
def lookupRate (eng : Engine) (shippingMethod : String) : RateLookup :=
  match eng.shippingRates.lookup shippingMethod with
  | some r => .own r
  | none =>
      if shippingMethod ∈ objectPrototypeKeys then .inherited else .undefined

/-! ## The engine -/

/-- The method `calculateShippingCost(totalWeight, shippingMethod)`. -/
def calculateShippingCost (eng : Engine) (totalWeight : JSNum)
    (shippingMethod : String) : Except JSError JSNum :=
  match lookupRate eng shippingMethod with
  | .undefined =>
      .error (.error ("Invalid shipping method: " ++ shippingMethod))
  | .own method =>
      let calculatedCost := JSNum.mul totalWeight (.fin method.rate)
      .ok (JSNum.max calculatedCost (.fin method.minimum))
  | .inherited =>
      -- `method.rate` and `method.minimum` are `undefined`, which is `NaN`
      -- as a number
      let calculatedCost := JSNum.mul totalWeight .nan
      .ok (JSNum.max calculatedCost .nan)

/-- Reading `field.value`: a `TypeError` when the field is absent. -/
def value (field : Option ℚ) : Except JSError ℚ :=
  match field with
  | some v => .ok v
  | none => .error .typeError

/-- The method `calculateLandedCost(product, quantity, shippingMethod)`. -/
def calculateLandedCost (eng : Engine) (product : Product) (quantity : ℚ)
    (shippingMethod : String) : Except JSError PricingResult := do
  let excel := product.excelStructure
  -- Step 1: cartons needed
  let casePack ← value excel.casePack
  let cartons := JSNum.ceil (JSNum.div (.fin quantity) (.fin casePack))
  -- Step 2: total weight
  let weight ← value excel.weight
  let totalWeight := JSNum.mul cartons (.fin weight)
  -- Step 3: shipping cost
  let shippingCost ← calculateShippingCost eng totalWeight shippingMethod
  -- Step 4: duties amount
  let price ← value excel.price
  let duties ← value excel.duties
  let dutiesAmount := JSNum.mul (.fin price) (JSNum.div (.fin duties) (.fin 100))
  -- Step 5: setup cost
  let setupCost : JSNum :=
    match excel.setupCost with
    | some v => .fin v
    | none => .fin 0
  -- Step 6: landed cost per unit
  let landedCostPerUnit :=
    JSNum.add
      (JSNum.add (JSNum.add (.fin price) dutiesAmount)
        (JSNum.div shippingCost (.fin quantity)))
      (JSNum.div setupCost (.fin quantity))
  -- Step 7: profit margin, with the override
  let profitMargin ←
    match excel.profitOverride with
    | some o => if o > 0 then pure o else value excel.profitMargin
    | none => value excel.profitMargin
  let unitPriceUSD :=
    JSNum.mul landedCostPerUnit
      (JSNum.add (.fin 1) (JSNum.div (.fin profitMargin) (.fin 100)))
  -- Step 8: convert to BBD
  let unitPriceBBD := JSNum.mul unitPriceUSD (.fin eng.exchangeRate)
  -- Step 9: totals
  let totalPriceBBD := JSNum.mul unitPriceBBD (.fin quantity)
  let totalCostBBD :=
    JSNum.mul
      (JSNum.mul (JSNum.add (.fin price) dutiesAmount) (.fin eng.exchangeRate))
      (.fin quantity)
  let totalGrossProfitBBD := JSNum.sub totalPriceBBD totalCostBBD
  pure {
    cartons := cartons
    totalWeight := totalWeight
    shippingCostUSD := shippingCost
    dutiesAmountUSD := dutiesAmount
    setupCostUSD := setupCost
    landedCostPerUnitUSD := landedCostPerUnit
    unitPriceUSD := unitPriceUSD
    unitPriceBBD := round2 unitPriceBBD
    totalPriceBBD := round2 totalPriceBBD
    totalGrossProfitBBD := round2 totalGrossProfitBBD
    exchangeRate := .fin eng.exchangeRate
    profitMargin := .fin profitMargin
    profitOverride :=
      match excel.profitOverride with
      | some v => .fin v
      | none => .fin 0 }

/-- The object returned by `calculateAllPricing`. -/
structure AllPricing where
  byDHL : PricingResult
  bySEA : PricingResult
  quantity : ℚ
  productName : String
  deriving DecidableEq

/-- The method `calculateAllPricing(product, quantity)`. -/
def calculateAllPricing (eng : Engine) (product : Product) (quantity : ℚ) :
    Except JSError AllPricing := do
  let dhlPricing ← calculateLandedCost eng product quantity "DHL"
  let seaPricing ← calculateLandedCost eng product quantity "SEA"
  pure {
    byDHL := dhlPricing
    bySEA := seaPricing
    quantity := quantity
    productName := product.name }

/-- The object returned by `validateProduct`. -/
structure ValidationResult where
  isValid : Bool
  errors : List String
  deriving DecidableEq

/-- The statement `if (cond) errors.push(message)`. -/
def pushIf (cond : Bool) (message : String) (errors : List String) : List String :=
  if cond then errors ++ [message] else errors

/-- The condition `!field || field.value <= 0`. -/
def absentOrNotPositive (field : Option ℚ) : Bool :=
  match field with
  | none => true
  | some v => decide (v ≤ 0)

/-- The condition `!field || field.value < 0`. -/
def absentOrNegative (field : Option ℚ) : Bool :=
  match field with
  | none => true
  | some v => decide (v < 0)

/-- The method `validateProduct(product)`. -/
def validateProduct (product : Product) : ValidationResult :=
  let errors : List String := []
  let excel := product.excelStructure
  let errors := pushIf (absentOrNotPositive excel.casePack)
    "Case Pack must be greater than 0" errors
  let errors := pushIf (absentOrNotPositive excel.weight)
    "Weight must be greater than 0" errors
  let errors := pushIf (absentOrNotPositive excel.price)
    "Price must be greater than 0" errors
  let errors := pushIf (absentOrNegative excel.duties)
    "Duties must be 0 or greater" errors
  let errors := pushIf (absentOrNegative excel.profitMargin)
    "Profit Margin must be 0 or greater" errors
  { isValid := errors.length == 0
    errors := errors }

/-- The method `Number.prototype.toFixed(2)`. A non-finite number gives its
name; otherwise the sign, then the integer nearest to 100 times the absolute
value (the larger one of two nearest), written in decimal with at least three
digits and a point before the last two. From 10^21 on the language falls back
to `Number::toString`, which is the parameter `numberToString`. -/
def toFixed2 (numberToString : ℚ → String) : JSNum → String
  | .nan => "NaN"
  | .pinf => "Infinity"
  | .ninf => "-Infinity"
  | .fin x =>
      let s := if x < 0 then "-" else ""
      let x := if x < 0 then -x else x
      if 10 ^ 21 ≤ x then s ++ numberToString x
      else
        let n : ℕ := (⌊x * 100 + 1 / 2⌋ : ℤ).toNat
        let m := if n = 0 then "0" else toString n
        let m := if m.length ≤ 2 then "".pushn '0' (3 - m.length) ++ m else m
        s ++ m.take (m.length - 2) ++ "." ++ m.drop (m.length - 2)

/-- One of the two display blocks of the pricing summary. -/
structure MethodSummary where
  unitPrice : String
  totalPrice : String
  grossProfit : String
  leadTime : String
  deriving DecidableEq

/-- The `pricing` field of the pricing summary. -/
structure SummaryPricing where
  byDHL : MethodSummary
  bySEA : MethodSummary
  deriving DecidableEq

/-- The object returned by `getPricingSummary`: the error object of an invalid
product, or the formatted summary. -/
inductive PricingSummary where
  | invalid (error : String) (details : List String)
  | summary (productName : String) (quantity : ℚ) (pricing : SummaryPricing)
      (details : AllPricing)
  deriving DecidableEq

/-- The display block built from one pricing result and the lead time. -/
def methodSummary (numberToString : ℚ → String) (r : PricingResult) (leadTime : ℚ) :
    MethodSummary where
  unitPrice := "BBD$" ++ toFixed2 numberToString r.unitPriceBBD
  totalPrice := "BBD$" ++ toFixed2 numberToString r.totalPriceBBD
  grossProfit := "BBD$" ++ toFixed2 numberToString r.totalGrossProfitBBD
  leadTime := numberToString leadTime ++ " days"

/-- The method `getPricingSummary(product, quantity)`. The rendering of a
finite number in a template literal (`Number::toString`) depends on the binary
representation of the number and is the parameter `numberToString`. -/
def getPricingSummary (numberToString : ℚ → String) (eng : Engine) (product : Product)
    (quantity : ℚ) : Except JSError PricingSummary := do
  let validation := validateProduct product
  if !validation.isValid then
    pure (.invalid "Invalid product data" validation.errors)
  else
    let pricing ← calculateAllPricing eng product quantity
    let leadTimeDHL ← value product.excelStructure.prodLeadTime
    let byDHL := methodSummary numberToString pricing.byDHL leadTimeDHL
    let leadTimeSEA ← value product.excelStructure.prodLeadTime
    let bySEA := methodSummary numberToString pricing.bySEA leadTimeSEA
    pure (.summary product.name quantity { byDHL := byDHL, bySEA := bySEA } pricing)

/-! ## Vocabulary for the statements -/

/-- The product has the five cost fields that `calculateLandedCost` reads
unconditionally, with the given values. -/
structure HasCostFields (p : Product) (casePack weight price duties profitMargin : ℚ) :
    Prop where
  casePack : p.excelStructure.casePack = some casePack
  weight : p.excelStructure.weight = some weight
  price : p.excelStructure.price = some price
  duties : p.excelStructure.duties = some duties
  profitMargin : p.excelStructure.profitMargin = some profitMargin

/-- The first product of `seedData.js` (custom printed notepads): case pack 100,
carton weight 15, price 1.10, duties 20, margin 30, override 0, no setup cost
field. -/
def notepads : Product where
  name := "Custom Printed Notepads"
  excelStructure := {
    casePack := some 100
    weight := some 15
    price := some (110 / 100)
    setupCost := none
    duties := some 20
    profitOverride := some 0
    profitMargin := some 30
    prodLeadTime := some 15 }

/-- The quotation for 300 notepads by DHL. -/
def notepadsQuote : PricingResult where
  cartons := .fin 3
  totalWeight := .fin 45
  shippingCostUSD := .fin 25
  dutiesAmountUSD := .fin (22 / 100)
  setupCostUSD := .fin 0
  landedCostPerUnitUSD := .fin (421 / 300)
  unitPriceUSD := .fin (5473 / 3000)
  unitPriceBBD := .fin (369 / 100)
  totalPriceBBD := .fin (110555 / 100)
  totalGrossProfitBBD := .fin (30563 / 100)
  exchangeRate := .fin (202 / 100)
  profitMargin := .fin 30
  profitOverride := .fin 0

/-- A product whose override 40 replaces its default margin 25. -/
def overridden : Product where
  name := "Overridden margin"
  excelStructure := {
    casePack := some 50
    weight := some 12
    price := some (250 / 100)
    setupCost := some 40
    duties := some 20
    profitOverride := some 40
    profitMargin := some 25
    prodLeadTime := some 20 }

/-- The result computed for −100 notepads by DHL. -/
def notepadsNegativeQuote : PricingResult where
  cartons := .fin (-1)
  totalWeight := .fin (-15)
  shippingCostUSD := .fin 25
  dutiesAmountUSD := .fin (22 / 100)
  setupCostUSD := .fin 0
  landedCostPerUnitUSD := .fin (107 / 100)
  unitPriceUSD := .fin (1391 / 1000)
  unitPriceBBD := .fin (281 / 100)
  totalPriceBBD := .fin (-28098 / 100)
  totalGrossProfitBBD := .fin (-1434 / 100)
  exchangeRate := .fin (202 / 100)
  profitMargin := .fin 30
  profitOverride := .fin 0

/-! ## Auxiliary definitions -/

/-- The record that `calculateLandedCost` returns, as a function of the values
it has read and of the shipping cost. -/
def assemble (eng : Engine) (excel : ExcelStructure) (casePack weight price duties : ℚ)
    (shippingCost : JSNum) (profitMargin quantity : ℚ) : PricingResult :=
  let cartons := JSNum.ceil (JSNum.div (.fin quantity) (.fin casePack))
  let dutiesAmount := JSNum.mul (.fin price) (JSNum.div (.fin duties) (.fin 100))
  let setupCost : JSNum :=
    match excel.setupCost with
    | some v => .fin v
    | none => .fin 0
  let landedCostPerUnit :=
    JSNum.add
      (JSNum.add (JSNum.add (.fin price) dutiesAmount)
        (JSNum.div shippingCost (.fin quantity)))
      (JSNum.div setupCost (.fin quantity))
  let unitPriceUSD :=
    JSNum.mul landedCostPerUnit
      (JSNum.add (.fin 1) (JSNum.div (.fin profitMargin) (.fin 100)))
  let unitPriceBBD := JSNum.mul unitPriceUSD (.fin eng.exchangeRate)
  let totalPriceBBD := JSNum.mul unitPriceBBD (.fin quantity)
  let totalCostBBD :=
    JSNum.mul
      (JSNum.mul (JSNum.add (.fin price) dutiesAmount) (.fin eng.exchangeRate))
      (.fin quantity)
  { cartons := cartons
    totalWeight := JSNum.mul cartons (.fin weight)
    shippingCostUSD := shippingCost
    dutiesAmountUSD := dutiesAmount
    setupCostUSD := setupCost
    landedCostPerUnitUSD := landedCostPerUnit
    unitPriceUSD := unitPriceUSD
    unitPriceBBD := round2 unitPriceBBD
    totalPriceBBD := round2 totalPriceBBD
    totalGrossProfitBBD := round2 (JSNum.sub totalPriceBBD totalCostBBD)
    exchangeRate := .fin eng.exchangeRate
    profitMargin := .fin profitMargin
    profitOverride :=
      match excel.profitOverride with
      | some v => .fin v
      | none => .fin 0 }

/-- The margin that step 7 selects. -/
def selectMargin (excel : ExcelStructure) : Except JSError ℚ :=
  match excel.profitOverride with
  | some o => if o > 0 then pure o else value excel.profitMargin
  | none => value excel.profitMargin

/-- The margin that step 7 applies, for a product whose default margin is
`profitMargin`: the override when it is present and positive. -/
def effectiveMargin (excel : ExcelStructure) (profitMargin : ℚ) : ℚ :=
  match excel.profitOverride with
  | some o => if o > 0 then o else profitMargin
  | none => profitMargin

/-- The rounding `Math.round(a * 100) / 100` on a rational. -/
def round2Q (a : ℚ) : ℚ := ((⌊a * 100 + 1 / 2⌋ : ℤ) : ℚ) / 100

/-- The shipping cost of `quantity` units as a rational. -/
def shippingQ (rate minimum weight casePack quantity : ℚ) : ℚ :=
  Max.max (((⌈quantity / casePack⌉ : ℤ) : ℚ) * weight * rate) minimum

/-- The unit price in USD as a rational. -/
def unitPriceQ (rate minimum casePack weight price duties setupCost margin quantity : ℚ) :
    ℚ :=
  (price + price * (duties / 100)
      + shippingQ rate minimum weight casePack quantity / quantity
      + setupCost / quantity)
    * (1 + margin / 100)

/-- The result of `calculateLandedCost` when no division by zero occurs, with
every field a rational. -/
def finiteQuote (rate minimum exchangeRate casePack weight price duties setupCost
    profitOverride margin quantity : ℚ) : PricingResult where
  cartons := .fin ((⌈quantity / casePack⌉ : ℤ) : ℚ)
  totalWeight := .fin (((⌈quantity / casePack⌉ : ℤ) : ℚ) * weight)
  shippingCostUSD := .fin (shippingQ rate minimum weight casePack quantity)
  dutiesAmountUSD := .fin (price * (duties / 100))
  setupCostUSD := .fin setupCost
  landedCostPerUnitUSD :=
    .fin (price + price * (duties / 100)
      + shippingQ rate minimum weight casePack quantity / quantity
      + setupCost / quantity)
  unitPriceUSD :=
    .fin (unitPriceQ rate minimum casePack weight price duties setupCost margin quantity)
  unitPriceBBD :=
    .fin (round2Q
      (unitPriceQ rate minimum casePack weight price duties setupCost margin quantity
        * exchangeRate))
  totalPriceBBD :=
    .fin (round2Q
      (unitPriceQ rate minimum casePack weight price duties setupCost margin quantity
        * exchangeRate * quantity))
  totalGrossProfitBBD :=
    .fin (round2Q
      (unitPriceQ rate minimum casePack weight price duties setupCost margin quantity
          * exchangeRate * quantity
        + -((price + price * (duties / 100)) * exchangeRate * quantity)))
  exchangeRate := .fin exchangeRate
  profitMargin := .fin margin
  profitOverride := .fin profitOverride

/-- The scenario product: price 1.10, case pack 100, carton weight 15, duties 20,
margin 30, override 0, setup cost 0. -/
def scenario : Product where
  name := "Scenario"
  excelStructure := {
    casePack := some 100
    weight := some 15
    price := some (110 / 100)
    setupCost := some 0
    duties := some 20
    profitOverride := some 0
    profitMargin := some 30
    prodLeadTime := some 15 }

/-- A product that `validateProduct` accepts and that has no `prodLeadTime`. -/
def withoutLeadTime : Product where
  name := "No lead time"
  excelStructure := {
    casePack := some 100
    weight := some 15
    price := some (110 / 100)
    setupCost := none
    duties := some 20
    profitOverride := none
    profitMargin := some 30
    prodLeadTime := none }

/-- A product that violates all five checks of `validateProduct`. -/
def allWrong : Product where
  name := "All wrong"
  excelStructure := {
    casePack := none
    weight := some 0
    price := some (-1)
    setupCost := none
    duties := some (-5)
    profitOverride := none
    profitMargin := none
    prodLeadTime := some 10 }

/-- The cost fields of the notepads under another name and lead time. -/
def relabelled : Product where
  name := "Relabelled notepads"
  excelStructure := {
    casePack := some 100
    weight := some 15
    price := some (110 / 100)
    setupCost := none
    duties := some 20
    profitOverride := some 0
    profitMargin := some 30
    prodLeadTime := some 45 }

/-- A valid product whose unit price in BBD for 100 units by DHL falls exactly on
half a cent: case pack 100, carton weight 15, price 1, duties 0, margin 0. -/
def halfCent : Product where
  name := "Half cent"
  excelStructure := {
    casePack := some 100
    weight := some 15
    price := some 1
    setupCost := none
    duties := some 0
    profitOverride := none
    profitMargin := some 0
    prodLeadTime := some 10 }

/-- A product with case pack size 0 and carton weight 0 (price 1, duties 0,
margin 0). -/
def degenerate : Product where
  name := "Degenerate"
  excelStructure := {
    casePack := some 0
    weight := some 0
    price := some 1
    setupCost := none
    duties := some 0
    profitOverride := none
    profitMargin := some 0
    prodLeadTime := some 10 }

/-- A valid product with heavy cartons: case pack 100, carton weight 200, price
1, duties 0, margin 0. -/
def heavy : Product where
  name := "Heavy cartons"
  excelStructure := {
    casePack := some 100
    weight := some 200
    price := some 1
    setupCost := none
    duties := some 0
    profitOverride := none
    profitMargin := some 0
    prodLeadTime := some 10 }

/-- A valid product without margin whose pass-through for 200 units by DHL falls
on half a cent: case pack 12, carton weight 15, price 0.08, duties 0, margin 0
(17 cartons, shipping cost 38.25, and 38.25 × 2.02 = 77.265). -/
def passThrough : Product where
  name := "Pass-through"
  excelStructure := {
    casePack := some 12
    weight := some 15
    price := some (8 / 100)
    setupCost := none
    duties := some 0
    profitOverride := none
    profitMargin := some 0
    prodLeadTime := some 10 }

/-- The engine with exchange rate 1.0 and the same rate table. -/
def engineAtPar : Engine where
  shippingRates := engine.shippingRates
  exchangeRate := 1

/-! ## Unfolding lemmas -/

/-- Every successful call has read the four unconditional fields, obtained a
shipping cost and a margin, and returns the assembled record. -/
theorem calculateLandedCost_inv {eng : Engine} {p : Product} {q : ℚ} {m : String}
    {r : PricingResult} (h : calculateLandedCost eng p q m = .ok r) :
    ∃ cp w pr d s pm,
      p.excelStructure.casePack = some cp ∧
      p.excelStructure.weight = some w ∧
      p.excelStructure.price = some pr ∧
      p.excelStructure.duties = some d ∧
      calculateShippingCost eng
        (JSNum.mul (JSNum.ceil (JSNum.div (.fin q) (.fin cp))) (.fin w)) m = .ok s ∧
      selectMargin p.excelStructure = .ok pm ∧
      r = assemble eng p.excelStructure cp w pr d s pm q := by
  obtain ⟨name, ⟨cpo, wo, pro, sco, duo, poo, pmo, lead⟩⟩ := p
  rcases cpo with _ | cp
  · simp [calculateLandedCost, value, bind, Except.bind] at h
  rcases wo with _ | w
  · simp [calculateLandedCost, value, bind, Except.bind] at h
  cases hs : calculateShippingCost eng
      (JSNum.mul (JSNum.ceil (JSNum.div (.fin q) (.fin cp))) (.fin w)) m with
  | error e => simp [calculateLandedCost, value, bind, Except.bind, hs] at h
  | ok s =>
    rcases pro with _ | pr
    · simp [calculateLandedCost, value, bind, Except.bind, hs] at h
    rcases duo with _ | d
    · simp [calculateLandedCost, value, bind, Except.bind, hs] at h
    have key : ∀ pm, selectMargin
        { casePack := some cp, weight := some w, price := some pr, setupCost := sco,
          duties := some d, profitOverride := poo, profitMargin := pmo,
          prodLeadTime := lead } = .ok pm →
        calculateLandedCost eng
          { name := name, excelStructure :=
            { casePack := some cp, weight := some w, price := some pr, setupCost := sco,
              duties := some d, profitOverride := poo, profitMargin := pmo,
              prodLeadTime := lead } } q m
          = .ok (assemble eng
            { casePack := some cp, weight := some w, price := some pr, setupCost := sco,
              duties := some d, profitOverride := poo, profitMargin := pmo,
              prodLeadTime := lead } cp w pr d s pm q) := by
      intro pm hpm
      rcases poo with _ | o
      · rcases pmo with _ | pm0
        · simp [selectMargin, value] at hpm
        · simp only [selectMargin, value, Except.ok.injEq] at hpm
          subst hpm
          simp only [calculateLandedCost, value, bind, Except.bind, hs]
          rfl
      · by_cases ho : o > 0
        · simp only [selectMargin, ho, if_true, pure, Except.pure, Except.ok.injEq] at hpm
          subst hpm
          simp only [calculateLandedCost, value, bind, Except.bind, hs, ho, if_true, pure,
            Except.pure]
          rfl
        · rcases pmo with _ | pm0
          · simp [selectMargin, value, ho] at hpm
          · simp only [selectMargin, value, ho, if_false, Except.ok.injEq] at hpm
            subst hpm
            simp only [calculateLandedCost, value, bind, Except.bind, hs, ho, if_false]
            rfl
    cases hpm : selectMargin
        { casePack := some cp, weight := some w, price := some pr, setupCost := sco,
          duties := some d, profitOverride := poo, profitMargin := pmo,
          prodLeadTime := lead } with
    | error e =>
      exfalso
      rcases poo with _ | o
      · rcases pmo with _ | pm0
        · simp [calculateLandedCost, value, bind, Except.bind, hs] at h
        · simp [selectMargin, value] at hpm
      · by_cases ho : o > 0
        · simp [selectMargin, ho, pure, Except.pure] at hpm
        · rcases pmo with _ | pm0
          · simp [calculateLandedCost, value, bind, Except.bind, hs, ho] at h
          · simp [selectMargin, value, ho] at hpm
    | ok pm =>
      refine ⟨cp, w, pr, d, s, pm, rfl, rfl, rfl, rfl, hs, rfl, ?_⟩
      have h2 := key pm hpm
      rw [h] at h2
      injection h2

/-- With the unconditional fields present, a shipping cost and a margin, the
call returns the assembled record. -/
theorem calculateLandedCost_ok {eng : Engine} {p : Product} {q : ℚ} {m : String}
    {cp w pr d pm : ℚ} {s : JSNum}
    (hcp : p.excelStructure.casePack = some cp)
    (hw : p.excelStructure.weight = some w)
    (hpr : p.excelStructure.price = some pr)
    (hd : p.excelStructure.duties = some d)
    (hs : calculateShippingCost eng
      (JSNum.mul (JSNum.ceil (JSNum.div (.fin q) (.fin cp))) (.fin w)) m = .ok s)
    (hpm : selectMargin p.excelStructure = .ok pm) :
    calculateLandedCost eng p q m = .ok (assemble eng p.excelStructure cp w pr d s pm q) := by
  cases hc : calculateLandedCost eng p q m with
  | ok r =>
    obtain ⟨cp2, w2, pr2, d2, s2, pm2, h1, h2, h3, h4, h5, h6, h7⟩ :=
      calculateLandedCost_inv hc
    rw [hcp] at h1
    rw [hw] at h2
    rw [hpr] at h3
    rw [hd] at h4
    rw [hpm] at h6
    injection h1 with h1
    injection h2 with h2
    injection h3 with h3
    injection h4 with h4
    injection h6 with h6
    subst h1 h2 h3 h4 h6
    rw [hs] at h5
    injection h5 with h5
    subst h5
    rw [h7]
  | error e =>
    exfalso
    obtain ⟨name, ⟨cpo, wo, pro, sco, duo, poo, pmo, lead⟩⟩ := p
    simp only at hcp hw hpr hd
    subst hcp hw hpr hd
    rcases poo with _ | o
    · rcases pmo with _ | pm0
      · simp [selectMargin, value] at hpm
      · simp [calculateLandedCost, value, bind, Except.bind, hs, pure, Except.pure] at hc
    · by_cases ho : o > 0
      · simp [calculateLandedCost, value, bind, Except.bind, hs, ho, pure, Except.pure] at hc
      · rcases pmo with _ | pm0
        · simp [selectMargin, value, ho] at hpm
        · simp [calculateLandedCost, value, bind, Except.bind, hs, ho, pure, Except.pure] at hc

/-! ## Evaluation lemmas -/

theorem JSNum.add_fin (a b : ℚ) : JSNum.add (.fin a) (.fin b) = .fin (a + b) := rfl

theorem JSNum.sub_fin (a b : ℚ) : JSNum.sub (.fin a) (.fin b) = .fin (a + -b) := rfl

theorem JSNum.mul_fin (a b : ℚ) : JSNum.mul (.fin a) (.fin b) = .fin (a * b) := rfl

theorem JSNum.max_fin (a b : ℚ) : JSNum.max (.fin a) (.fin b) = .fin (Max.max a b) := rfl

theorem JSNum.ceil_fin_of (a : ℚ) (z : ℤ) (h : (z : ℚ) - 1 < a ∧ a ≤ z) :
    JSNum.ceil (.fin a) = .fin z := by
  have hz : ⌈a⌉ = z := Int.ceil_eq_iff.mpr h
  show JSNum.fin ((⌈a⌉ : ℤ) : ℚ) = _
  rw [hz]

theorem JSNum.round_fin_of (a : ℚ) (z : ℤ) (h : (z : ℚ) ≤ a + 1 / 2 ∧ a + 1 / 2 < z + 1) :
    JSNum.round (.fin a) = .fin z := by
  have hz : ⌊a + 1 / 2⌋ = z := Int.floor_eq_iff.mpr h
  show JSNum.fin ((⌊a + 1 / 2⌋ : ℤ) : ℚ) = _
  rw [hz]

theorem round2_fin_of (a : ℚ) (z : ℤ)
    (h : (z : ℚ) ≤ a * 100 + 1 / 2 ∧ a * 100 + 1 / 2 < z + 1) :
    round2 (.fin a) = .fin (z / 100) := by
  have h1 : JSNum.mul (.fin a) (.fin 100) = .fin (a * 100) := rfl
  have h100 : (100 : ℚ) ≠ 0 := by norm_num
  rw [round2, h1, JSNum.round_fin_of _ z h]
  simp [JSNum.div, h100]

theorem JSNum.div_fin_of (a b : ℚ) (hb : b ≠ 0) :
    JSNum.div (.fin a) (.fin b) = .fin (a / b) := by
  simp [JSNum.div, hb]

theorem calculateShippingCost_DHL (tw : JSNum) :
    calculateShippingCost engine tw "DHL"
      = .ok (JSNum.max (JSNum.mul tw (.fin (15 / 100))) (.fin 25)) := rfl

theorem calculateShippingCost_SEA (tw : JSNum) :
    calculateShippingCost engine tw "SEA"
      = .ok (JSNum.max (JSNum.mul tw (.fin (8 / 100))) (.fin 15)) := rfl

/-- The margin selected for a product whose default margin is present. -/
theorem selectMargin_of_profitMargin {excel : ExcelStructure} {pm : ℚ}
    (h : excel.profitMargin = some pm) :
    selectMargin excel = .ok
      (match excel.profitOverride with
       | some o => if o > 0 then o else pm
       | none => pm) := by
  unfold selectMargin
  rw [h]
  cases excel.profitOverride with
  | none => rfl
  | some o =>
    by_cases ho : o > 0
    · simp [ho, pure, Except.pure]
    · simp [ho, value]

/-- With the cost fields present and a configured method, the call returns the
assembled record. -/
theorem calculateLandedCost_configured {p : Product} {cp w pr d pm : ℚ} (q : ℚ)
    {m : String} (hp : HasCostFields p cp w pr d pm) (hm : m = "DHL" ∨ m = "SEA") :
    ∃ s, calculateShippingCost engine
        (JSNum.mul (JSNum.ceil (JSNum.div (.fin q) (.fin cp))) (.fin w)) m = .ok s ∧
      calculateLandedCost engine p q m = .ok
        (assemble engine p.excelStructure cp w pr d s
          (match p.excelStructure.profitOverride with
           | some o => if o > 0 then o else pm
           | none => pm) q) := by
  have hs : ∃ s, calculateShippingCost engine
      (JSNum.mul (JSNum.ceil (JSNum.div (.fin q) (.fin cp))) (.fin w)) m = .ok s := by
    rcases hm with rfl | rfl
    · exact ⟨_, calculateShippingCost_DHL _⟩
    · exact ⟨_, calculateShippingCost_SEA _⟩
  obtain ⟨s, hs⟩ := hs
  exact ⟨s, hs, calculateLandedCost_ok hp.casePack hp.weight hp.price hp.duties hs
    (selectMargin_of_profitMargin hp.profitMargin)⟩

theorem notepads_fields : HasCostFields notepads 100 15 (110 / 100) 20 30 :=
  ⟨rfl, rfl, rfl, rfl, rfl⟩

theorem notepads_quote :
    calculateLandedCost engine notepads 300 "DHL" = .ok notepadsQuote := by
  have hc : JSNum.ceil (JSNum.div (.fin 300) (.fin 100)) = .fin 3 := by
    rw [JSNum.div_fin_of _ _ (by norm_num)]
    exact JSNum.ceil_fin_of _ 3 (by norm_num)
  have hs : calculateShippingCost engine
      (JSNum.mul (JSNum.ceil (JSNum.div (.fin 300) (.fin 100))) (.fin 15)) "DHL"
      = .ok (.fin 25) := by
    rw [calculateShippingCost_DHL, hc]
    simp only [JSNum.mul_fin, JSNum.max_fin]
    norm_num
  rw [calculateLandedCost_ok notepads_fields.casePack notepads_fields.weight
    notepads_fields.price notepads_fields.duties hs
    (selectMargin_of_profitMargin notepads_fields.profitMargin)]
  have h100 : (100 : ℚ) ≠ 0 := by norm_num
  have h300 : (300 : ℚ) ≠ 0 := by norm_num
  simp only [assemble, hc, notepads, engine]
  simp only [JSNum.mul_fin, JSNum.add_fin, JSNum.sub_fin,
    JSNum.div_fin_of _ _ h100, JSNum.div_fin_of _ _ h300]
  rw [round2_fin_of _ 369 (by norm_num), round2_fin_of _ 110555 (by norm_num),
    round2_fin_of _ 30563 (by norm_num)]
  simp only [notepadsQuote]
  norm_num

/-! ## The landed cost formula -/

/-- C1: for every product carrying the cost fields, every quantity > 0 and each
of the methods DHL and SEA, `calculateLandedCost` returns a result in which the
total weight is cartons × carton weight, the shipping cost is
`calculateShippingCost(totalWeight, method)`, the setup cost is the product's
setup cost or 0 when the product has none, and
`landedCostPerUnitUSD = price + dutiesAmountUSD + shippingCostUSD / quantity +
setupCostUSD / quantity`; on finite values the sum and quotients are those of
the rationals. -/
theorem calculateLandedCost_landedCostPerUnitUSD (p : Product) (cp w pr d pm q : ℚ)
    (m : String) (hp : HasCostFields p cp w pr d pm) (hq : 0 < q)
    (hm : m = "DHL" ∨ m = "SEA") :
    ∃ r, calculateLandedCost engine p q m = .ok r ∧
      r.totalWeight = JSNum.mul r.cartons (.fin w) ∧
      calculateShippingCost engine r.totalWeight m = .ok r.shippingCostUSD ∧
      r.setupCostUSD = .fin (p.excelStructure.setupCost.getD 0) ∧
      r.landedCostPerUnitUSD =
        JSNum.add
          (JSNum.add (JSNum.add (.fin pr) r.dutiesAmountUSD)
            (JSNum.div r.shippingCostUSD (.fin q)))
          (JSNum.div r.setupCostUSD (.fin q)) ∧
      ∀ da s sc, r.dutiesAmountUSD = .fin da → r.shippingCostUSD = .fin s →
        r.setupCostUSD = .fin sc →
        r.landedCostPerUnitUSD = .fin (pr + da + s / q + sc / q) := by
  obtain ⟨s, hs, hr⟩ := calculateLandedCost_configured q hp hm
  refine ⟨_, hr, rfl, hs, ?_, rfl, ?_⟩
  · show (match p.excelStructure.setupCost with
        | some v => JSNum.fin v
        | none => JSNum.fin 0) = _
    cases p.excelStructure.setupCost <;> rfl
  · intro da s0 sc hda hs0 hsc
    have hland : (assemble engine p.excelStructure cp w pr d s
        (match p.excelStructure.profitOverride with
         | some o => if o > 0 then o else pm
         | none => pm) q).landedCostPerUnitUSD
        = JSNum.add
          (JSNum.add (JSNum.add (.fin pr)
            (assemble engine p.excelStructure cp w pr d s
              (match p.excelStructure.profitOverride with
               | some o => if o > 0 then o else pm
               | none => pm) q).dutiesAmountUSD)
            (JSNum.div (assemble engine p.excelStructure cp w pr d s
              (match p.excelStructure.profitOverride with
               | some o => if o > 0 then o else pm
               | none => pm) q).shippingCostUSD (.fin q)))
          (JSNum.div (assemble engine p.excelStructure cp w pr d s
              (match p.excelStructure.profitOverride with
               | some o => if o > 0 then o else pm
               | none => pm) q).setupCostUSD (.fin q)) := rfl
    rw [hland, hda, hs0, hsc, JSNum.div_fin_of _ _ hq.ne', JSNum.div_fin_of _ _ hq.ne']
    rfl

/-- C1, at the notepads product, 300 units by DHL. -/
theorem calculateLandedCost_landedCostPerUnitUSD_witness :
    ∃ r, calculateLandedCost engine notepads 300 "DHL" = .ok r ∧
      r.totalWeight = JSNum.mul r.cartons (.fin 15) ∧
      calculateShippingCost engine r.totalWeight "DHL" = .ok r.shippingCostUSD ∧
      r.setupCostUSD = .fin (notepads.excelStructure.setupCost.getD 0) ∧
      r.landedCostPerUnitUSD =
        JSNum.add
          (JSNum.add (JSNum.add (.fin (110 / 100)) r.dutiesAmountUSD)
            (JSNum.div r.shippingCostUSD (.fin 300)))
          (JSNum.div r.setupCostUSD (.fin 300)) ∧
      ∀ da s sc, r.dutiesAmountUSD = .fin da → r.shippingCostUSD = .fin s →
        r.setupCostUSD = .fin sc →
        r.landedCostPerUnitUSD = .fin (110 / 100 + da + s / 300 + sc / 300) :=
  calculateLandedCost_landedCostPerUnitUSD notepads 100 15 (110 / 100) 20 30 300 "DHL"
    notepads_fields (by norm_num) (Or.inl rfl)

/-! ## The shipping cost -/

/-- C2: for each configured method (DHL: rate 0.15, minimum 25; SEA: rate 0.08,
minimum 15) and every total weight, `calculateShippingCost` returns
`max(totalWeight × rate, minimum)`: the result is never below the minimum and
is exactly the minimum whenever `totalWeight × rate < minimum`. -/
theorem calculateShippingCost_max_minimum (totalWeight : ℚ) (m : String)
    (rate minimum : ℚ)
    (hm : (m = "DHL" ∧ rate = 15 / 100 ∧ minimum = 25) ∨
      (m = "SEA" ∧ rate = 8 / 100 ∧ minimum = 15)) :
    ∃ c : ℚ, calculateShippingCost engine (.fin totalWeight) m = .ok (.fin c) ∧
      c = Max.max (totalWeight * rate) minimum ∧
      minimum ≤ c ∧
      (totalWeight * rate < minimum → c = minimum) := by
  refine ⟨Max.max (totalWeight * rate) minimum, ?_, rfl, le_max_right _ _, ?_⟩
  · rcases hm with ⟨rfl, rfl, rfl⟩ | ⟨rfl, rfl, rfl⟩
    · exact calculateShippingCost_DHL _
    · exact calculateShippingCost_SEA _
  · intro h
    exact max_eq_right h.le

/-- C2, at 45 kg by DHL: 45 × 0.15 = 6.75 is below the minimum 25. -/
theorem calculateShippingCost_max_minimum_witness :
    ∃ c : ℚ, calculateShippingCost engine (.fin 45) "DHL" = .ok (.fin c) ∧
      c = Max.max (45 * (15 / 100)) 25 ∧
      25 ≤ c ∧
      ((45 : ℚ) * (15 / 100) < 25 → c = 25) :=
  calculateShippingCost_max_minimum 45 "DHL" (15 / 100) 25 (Or.inl ⟨rfl, rfl, rfl⟩)

/-! ## Cartons -/

/-- C3: for every integer quantity >= 1 and integer case pack size >= 1, the
cartons value returned by `calculateLandedCost` is the ceiling of
quantity / casePack, the least integer `n` with `n × casePack >= quantity`. -/
theorem calculateLandedCost_cartons_ceiling (p : Product) (quantity casePack : ℤ)
    (w pr d pm : ℚ) (m : String) (hp : HasCostFields p (casePack : ℚ) w pr d pm)
    (hq : 1 ≤ quantity) (hcp : 1 ≤ casePack) (hm : m = "DHL" ∨ m = "SEA") :
    ∃ r, ∃ n : ℤ, calculateLandedCost engine p (quantity : ℚ) m = .ok r ∧
      r.cartons = .fin (n : ℚ) ∧
      n = ⌈(quantity : ℚ) / (casePack : ℚ)⌉ ∧
      quantity ≤ n * casePack ∧
      (∀ k : ℤ, quantity ≤ k * casePack → n ≤ k) ∧
      1 ≤ n := by
  obtain ⟨s, -, hr⟩ := calculateLandedCost_configured (quantity : ℚ) hp hm
  have hcpQ : (0 : ℚ) < (casePack : ℚ) := by exact_mod_cast (by omega : 0 < casePack)
  have hle : quantity ≤ ⌈(quantity : ℚ) / (casePack : ℚ)⌉ * casePack := by
    have h1 : (quantity : ℚ) / casePack ≤ (⌈(quantity : ℚ) / (casePack : ℚ)⌉ : ℚ) :=
      Int.le_ceil _
    have h2 := (div_le_iff₀ hcpQ).mp h1
    exact_mod_cast h2
  have hleast : ∀ k : ℤ, quantity ≤ k * casePack →
      ⌈(quantity : ℚ) / (casePack : ℚ)⌉ ≤ k := by
    intro k hk
    apply Int.ceil_le.mpr
    rw [div_le_iff₀ hcpQ]
    exact_mod_cast hk
  refine ⟨_, ⌈(quantity : ℚ) / (casePack : ℚ)⌉, hr, ?_, rfl, hle, hleast, ?_⟩
  · show JSNum.ceil (JSNum.div (.fin (quantity : ℚ)) (.fin (casePack : ℚ))) = _
    rw [JSNum.div_fin_of _ _ hcpQ.ne']
    rfl
  · by_contra hn
    have hn0 : ⌈(quantity : ℚ) / (casePack : ℚ)⌉ ≤ 0 := by omega
    have : ⌈(quantity : ℚ) / (casePack : ℚ)⌉ * casePack ≤ 0 :=
      mul_nonpos_of_nonpos_of_nonneg hn0 (by omega)
    omega

/-- C3, at quantity 101 and case pack 100: 2 cartons. -/
theorem calculateLandedCost_cartons_ceiling_witness :
    ∃ r, calculateLandedCost engine notepads 101 "SEA" = .ok r ∧
      r.cartons = .fin 2 := by
  obtain ⟨r, n, hr, hc, -, hle, hleast, -⟩ :=
    calculateLandedCost_cartons_ceiling notepads 101 100 15 (110 / 100) 20 30 "SEA"
      ⟨rfl, rfl, rfl, rfl, rfl⟩ (by norm_num) (by norm_num) (Or.inr rfl)
  have h2 : n ≤ 2 := hleast 2 (by norm_num)
  have hn : n = 2 := by omega
  subst hn
  exact ⟨r, by exact_mod_cast hr, by exact_mod_cast hc⟩

/-! ## Margin and prices -/

/-- C4: the margin that `calculateLandedCost` applies and returns is the
override when the override is present and strictly greater than 0, and the
default `profitMargin` otherwise (override absent, zero or negative). -/
theorem calculateLandedCost_profitMargin_override (p : Product) (cp w pr d pm q : ℚ)
    (m : String) (hp : HasCostFields p cp w pr d pm) (hm : m = "DHL" ∨ m = "SEA") :
    ∃ r, calculateLandedCost engine p q m = .ok r ∧
      (∀ o, p.excelStructure.profitOverride = some o → 0 < o →
        r.profitMargin = .fin o) ∧
      (∀ o, p.excelStructure.profitOverride = some o → o ≤ 0 →
        r.profitMargin = .fin pm) ∧
      (p.excelStructure.profitOverride = none → r.profitMargin = .fin pm) ∧
      r.unitPriceUSD =
        JSNum.mul r.landedCostPerUnitUSD
          (JSNum.add (.fin 1) (JSNum.div r.profitMargin (.fin 100))) := by
  obtain ⟨s, -, hr⟩ := calculateLandedCost_configured q hp hm
  refine ⟨_, hr, ?_, ?_, ?_, rfl⟩
  · intro o ho hpos
    show JSNum.fin (match p.excelStructure.profitOverride with
      | some o => if o > 0 then o else pm
      | none => pm) = _
    rw [ho]
    simp [hpos]
  · intro o ho hneg
    show JSNum.fin (match p.excelStructure.profitOverride with
      | some o => if o > 0 then o else pm
      | none => pm) = _
    rw [ho]
    simp [not_lt.mpr hneg]
  · intro ho
    show JSNum.fin (match p.excelStructure.profitOverride with
      | some o => if o > 0 then o else pm
      | none => pm) = _
    rw [ho]

/-- C4, at override 40 with default 25 (margin 40) and at override 0 with
default 30 (margin 30). -/
theorem calculateLandedCost_profitMargin_override_witness :
    (∃ r, calculateLandedCost engine overridden 120 "SEA" = .ok r ∧
      r.profitMargin = .fin 40) ∧
    (∃ r, calculateLandedCost engine notepads 300 "DHL" = .ok r ∧
      r.profitMargin = .fin 30) := by
  constructor
  · obtain ⟨r, hr, hpos, -, -, -⟩ :=
      calculateLandedCost_profitMargin_override overridden 50 12 (250 / 100) 20 25 120
        "SEA" ⟨rfl, rfl, rfl, rfl, rfl⟩ (Or.inr rfl)
    exact ⟨r, hr, hpos 40 rfl (by norm_num)⟩
  · obtain ⟨r, hr, -, hzero, -, -⟩ :=
      calculateLandedCost_profitMargin_override notepads 100 15 (110 / 100) 20 30 300
        "DHL" notepads_fields (Or.inl rfl)
    exact ⟨r, hr, hzero 0 rfl le_rfl⟩

/-- C5: whenever `calculateLandedCost` returns a result,
`unitPriceUSD = landedCostPerUnitUSD × (1 + profitMargin / 100)` with the
margin returned in the same result. -/
theorem calculateLandedCost_unitPriceUSD (eng : Engine) (p : Product) (q : ℚ)
    (m : String) (r : PricingResult) (h : calculateLandedCost eng p q m = .ok r) :
    r.unitPriceUSD =
      JSNum.mul r.landedCostPerUnitUSD
        (JSNum.add (.fin 1) (JSNum.div r.profitMargin (.fin 100))) := by
  obtain ⟨cp, w, pr, d, s, pm, -, -, -, -, -, -, rfl⟩ := calculateLandedCost_inv h
  rfl

/-- C5, at the quotation for 300 notepads by DHL. -/
theorem calculateLandedCost_unitPriceUSD_witness :
    calculateLandedCost engine notepads 300 "DHL" = .ok notepadsQuote ∧
    notepadsQuote.unitPriceUSD =
      JSNum.mul notepadsQuote.landedCostPerUnitUSD
        (JSNum.add (.fin 1) (JSNum.div notepadsQuote.profitMargin (.fin 100))) :=
  ⟨notepads_quote,
    calculateLandedCost_unitPriceUSD engine notepads 300 "DHL" notepadsQuote notepads_quote⟩

/-- C6: whenever `calculateLandedCost` returns a result,
`unitPriceBBD = round2(unitPriceUSD × exchangeRate)` with the values returned
in the same result. -/
theorem calculateLandedCost_unitPriceBBD (eng : Engine) (p : Product) (q : ℚ)
    (m : String) (r : PricingResult) (h : calculateLandedCost eng p q m = .ok r) :
    r.unitPriceBBD = round2 (JSNum.mul r.unitPriceUSD r.exchangeRate) := by
  obtain ⟨cp, w, pr, d, s, pm, -, -, -, -, -, -, rfl⟩ := calculateLandedCost_inv h
  rfl

/-- C6, at the quotation for 300 notepads by DHL. -/
theorem calculateLandedCost_unitPriceBBD_witness :
    calculateLandedCost engine notepads 300 "DHL" = .ok notepadsQuote ∧
    notepadsQuote.unitPriceBBD =
      round2 (JSNum.mul notepadsQuote.unitPriceUSD notepadsQuote.exchangeRate) :=
  ⟨notepads_quote,
    calculateLandedCost_unitPriceBBD engine notepads 300 "DHL" notepadsQuote notepads_quote⟩

/-- C7: whenever `calculateLandedCost` returns a result,
`totalPriceBBD = round2(unitPriceUSD × exchangeRate × quantity)`: the unrounded
unit price in BBD times the quantity, rounded once at the end. -/
theorem calculateLandedCost_totalPriceBBD (eng : Engine) (p : Product) (q : ℚ)
    (m : String) (r : PricingResult) (h : calculateLandedCost eng p q m = .ok r) :
    r.totalPriceBBD =
      round2 (JSNum.mul (JSNum.mul r.unitPriceUSD r.exchangeRate) (.fin q)) := by
  obtain ⟨cp, w, pr, d, s, pm, -, -, -, -, -, -, rfl⟩ := calculateLandedCost_inv h
  rfl

/-- C7, at the quotation for 300 notepads by DHL. -/
theorem calculateLandedCost_totalPriceBBD_witness :
    calculateLandedCost engine notepads 300 "DHL" = .ok notepadsQuote ∧
    notepadsQuote.totalPriceBBD =
      round2 (JSNum.mul (JSNum.mul notepadsQuote.unitPriceUSD notepadsQuote.exchangeRate)
        (.fin 300)) :=
  ⟨notepads_quote,
    calculateLandedCost_totalPriceBBD engine notepads 300 "DHL" notepadsQuote notepads_quote⟩

/-- C8: whenever `calculateLandedCost` returns a result,
`totalGrossProfitBBD = round2(unrounded total price − (price + dutiesAmountUSD)
× exchangeRate × quantity)`: the cost subtracted holds the unit price and the
duties only, neither the shipping cost nor the setup cost. -/
theorem calculateLandedCost_totalGrossProfitBBD (eng : Engine) (p : Product) (q : ℚ)
    (m : String) (r : PricingResult) (h : calculateLandedCost eng p q m = .ok r) :
    ∃ price, p.excelStructure.price = some price ∧
      r.totalGrossProfitBBD =
        round2 (JSNum.sub
          (JSNum.mul (JSNum.mul r.unitPriceUSD r.exchangeRate) (.fin q))
          (JSNum.mul
            (JSNum.mul (JSNum.add (.fin price) r.dutiesAmountUSD) r.exchangeRate)
            (.fin q))) := by
  obtain ⟨cp, w, pr, d, s, pm, -, -, hpr, -, -, -, rfl⟩ := calculateLandedCost_inv h
  exact ⟨pr, hpr, rfl⟩

/-- C8, at the quotation for 300 notepads by DHL. -/
theorem calculateLandedCost_totalGrossProfitBBD_witness :
    calculateLandedCost engine notepads 300 "DHL" = .ok notepadsQuote ∧
    ∃ price, notepads.excelStructure.price = some price ∧
      notepadsQuote.totalGrossProfitBBD =
        round2 (JSNum.sub
          (JSNum.mul (JSNum.mul notepadsQuote.unitPriceUSD notepadsQuote.exchangeRate)
            (.fin 300))
          (JSNum.mul
            (JSNum.mul (JSNum.add (.fin price) notepadsQuote.dutiesAmountUSD)
              notepadsQuote.exchangeRate)
            (.fin 300))) :=
  ⟨notepads_quote,
    calculateLandedCost_totalGrossProfitBBD engine notepads 300 "DHL" notepadsQuote
      notepads_quote⟩

/-! ## Errors -/

/-- A method name inherited from `Object.prototype` is looked up successfully,
and the shipping cost computed from it is `NaN`. -/
theorem calculateShippingCost_of_inherited (eng : Engine) (tw : JSNum) (m : String)
    (h : lookupRate eng m = .inherited) : calculateShippingCost eng tw m = .ok .nan := by
  unfold calculateShippingCost
  rw [h]
  cases tw <;> rfl

/-- What the guard of `calculateShippingCost` rejects: exactly the names that
are neither in the rate table nor inherited from `Object.prototype`. -/
theorem calculateShippingCost_error_iff (tw : JSNum) (m : String) :
    (∃ e, calculateShippingCost engine tw m = .error e) ↔
      (m ≠ "DHL" ∧ m ≠ "SEA" ∧ m ∉ objectPrototypeKeys) := by
  by_cases h1 : m = "DHL"
  · subst h1
    simp [calculateShippingCost_DHL]
  by_cases h2 : m = "SEA"
  · subst h2
    simp [calculateShippingCost_SEA]
  have hl : engine.shippingRates.lookup m = none := by
    have e1 : (m == "DHL") = false := by simpa using h1
    have e2 : (m == "SEA") = false := by simpa using h2
    simp [engine, List.lookup, e1, e2]
  by_cases h3 : m ∈ objectPrototypeKeys
  · have : lookupRate engine m = .inherited := by
      simp [lookupRate, hl, h3]
    simp [calculateShippingCost_of_inherited engine tw m this, h3]
  · have : lookupRate engine m = .undefined := by
      simp [lookupRate, hl, h3]
    simp [calculateShippingCost, this, h1, h2, h3]

/-- C9 (evaluation at a method name outside the rate table): `constructor` is
not an entry of the table, yet `calculateShippingCost` raises no error and
returns `NaN`, and `calculateLandedCost` returns a result whose shipping cost
is `NaN`. -/
theorem calculateShippingCost_constructor_no_error :
    engine.shippingRates.lookup "constructor" = none ∧
    calculateShippingCost engine (.fin 45) "constructor" = .ok .nan ∧
    ∃ r, calculateLandedCost engine notepads 300 "constructor" = .ok r ∧
      r.shippingCostUSD = .nan :=
  ⟨rfl, rfl,
    _, calculateLandedCost_ok notepads_fields.casePack notepads_fields.weight
      notepads_fields.price notepads_fields.duties
      (calculateShippingCost_of_inherited engine _ "constructor" rfl)
      (selectMargin_of_profitMargin notepads_fields.profitMargin), rfl⟩

/-- C10 (counterexample): with quantity −100 and the configured method DHL,
`calculateLandedCost` raises no error and returns a pricing result. -/
theorem calculateLandedCost_negative_quantity_returns :
    (-100 : ℚ) ≤ 0 ∧
    calculateLandedCost engine notepads (-100) "DHL" = .ok notepadsNegativeQuote := by
  refine ⟨by norm_num, ?_⟩
  have hc : JSNum.ceil (JSNum.div (.fin (-100)) (.fin 100)) = .fin (-1) := by
    rw [JSNum.div_fin_of _ _ (by norm_num)]
    rw [JSNum.ceil_fin_of (-100 / 100) (-1) (by norm_num)]
    norm_num
  have hs : calculateShippingCost engine
      (JSNum.mul (JSNum.ceil (JSNum.div (.fin (-100)) (.fin 100))) (.fin 15)) "DHL"
      = .ok (.fin 25) := by
    rw [calculateShippingCost_DHL, hc]
    simp only [JSNum.mul_fin, JSNum.max_fin]
    norm_num
  rw [calculateLandedCost_ok notepads_fields.casePack notepads_fields.weight
    notepads_fields.price notepads_fields.duties hs
    (selectMargin_of_profitMargin notepads_fields.profitMargin)]
  have h100 : (100 : ℚ) ≠ 0 := by norm_num
  have hq : (-100 : ℚ) ≠ 0 := by norm_num
  simp only [assemble, hc, notepads, engine]
  simp only [JSNum.mul_fin, JSNum.add_fin, JSNum.sub_fin,
    JSNum.div_fin_of _ _ h100, JSNum.div_fin_of _ _ hq]
  rw [round2_fin_of _ 281 (by norm_num), round2_fin_of _ (-28098) (by norm_num),
    round2_fin_of _ (-1434) (by norm_num)]
  simp only [notepadsNegativeQuote]
  norm_num

theorem JSNum.div_zero_not_finite (x : JSNum) :
    (JSNum.div x (.fin 0)).isFinite = false := by
  cases x with
  | fin a =>
    by_cases ha : a = 0
    · simp [JSNum.div, ha, JSNum.isFinite]
    · by_cases hp : 0 < a <;> simp [JSNum.div, ha, hp, JSNum.isFinite]
  | pinf => simp [JSNum.div, JSNum.isFinite]
  | ninf => simp [JSNum.div, JSNum.isFinite]
  | nan => simp [JSNum.div, JSNum.isFinite]

theorem JSNum.add_not_finite_right (x y : JSNum) (h : y.isFinite = false) :
    (JSNum.add x y).isFinite = false := by
  cases x <;> cases y <;> simp_all [JSNum.add, JSNum.isFinite]

theorem JSNum.add_not_finite_left (x y : JSNum) (h : x.isFinite = false) :
    (JSNum.add x y).isFinite = false := by
  cases x <;> cases y <;> simp_all [JSNum.add, JSNum.isFinite]

theorem JSNum.ceil_not_finite (x : JSNum) (h : x.isFinite = false) :
    (JSNum.ceil x).isFinite = false := by
  cases x <;> simp_all [JSNum.ceil, JSNum.isFinite]

/-- C10 (amended): `calculateLandedCost` does not validate the quantity or the
case pack size. For every product carrying the cost fields and each configured
method, a quantity <= 0 or a case pack size <= 0 raises no error: a result is
returned, computed by the same formulas without clamping (cartons is
`Math.ceil(quantity / casePack)`); with quantity 0 the landed cost per unit is
not finite, and with case pack size 0 the carton count is not finite. -/
theorem calculateLandedCost_unvalidated (p : Product) (cp w pr d pm q : ℚ)
    (m : String) (hp : HasCostFields p cp w pr d pm) (hm : m = "DHL" ∨ m = "SEA")
    (hdeg : q ≤ 0 ∨ cp ≤ 0) :
    ∃ r, calculateLandedCost engine p q m = .ok r ∧
      r.cartons = JSNum.ceil (JSNum.div (.fin q) (.fin cp)) ∧
      (q = 0 → r.landedCostPerUnitUSD.isFinite = false) ∧
      (cp = 0 → r.cartons.isFinite = false) := by
  obtain ⟨s, -, hr⟩ := calculateLandedCost_configured q hp hm
  refine ⟨_, hr, rfl, ?_, ?_⟩
  · intro hq
    subst hq
    exact JSNum.add_not_finite_right _ _ (JSNum.div_zero_not_finite _)
  · intro hcp
    subst hcp
    exact JSNum.ceil_not_finite _ (JSNum.div_zero_not_finite _)

/-- C10 (amended), at quantity 0 for the notepads by DHL. -/
theorem calculateLandedCost_unvalidated_witness :
    ((0 : ℚ) ≤ 0 ∨ (100 : ℚ) ≤ 0) ∧
    ∃ r, calculateLandedCost engine notepads 0 "DHL" = .ok r ∧
      r.cartons = JSNum.ceil (JSNum.div (.fin 0) (.fin 100)) ∧
      ((0 : ℚ) = 0 → r.landedCostPerUnitUSD.isFinite = false) ∧
      ((100 : ℚ) = 0 → r.cartons.isFinite = false) :=
  ⟨Or.inl le_rfl,
    calculateLandedCost_unvalidated notepads 100 15 (110 / 100) 20 30 0 "DHL"
      notepads_fields (Or.inl rfl) (Or.inl le_rfl)⟩

/-! ## Finite results -/

theorem round2_fin (a : ℚ) : round2 (.fin a) = .fin (round2Q a) := by
  have h100 : (100 : ℚ) ≠ 0 := by norm_num
  show JSNum.div (JSNum.fin ((⌊a * 100 + 1 / 2⌋ : ℤ) : ℚ)) (.fin 100) = _
  rw [JSNum.div_fin_of _ _ h100]
  rfl

theorem round2Q_mono {a b : ℚ} (h : a ≤ b) : round2Q a ≤ round2Q b := by
  unfold round2Q
  have hf : ⌊a * 100 + 1 / 2⌋ ≤ ⌊b * 100 + 1 / 2⌋ := Int.floor_mono (by linarith)
  have hq : ((⌊a * 100 + 1 / 2⌋ : ℤ) : ℚ) ≤ ((⌊b * 100 + 1 / 2⌋ : ℤ) : ℚ) := by
    exact_mod_cast hf
  exact div_le_div_of_nonneg_right hq (by norm_num)

/-- With the cost fields present, a non-zero case pack size and a non-zero
quantity, the result for a configured method is the finite quotation. -/
theorem calculateLandedCost_finite {p : Product} {cp w pr d pm : ℚ} (q : ℚ)
    {m : String} {rate minimum : ℚ} (hp : HasCostFields p cp w pr d pm)
    (hm : (m = "DHL" ∧ rate = 15 / 100 ∧ minimum = 25) ∨
      (m = "SEA" ∧ rate = 8 / 100 ∧ minimum = 15))
    (hcp : cp ≠ 0) (hq : q ≠ 0) :
    calculateLandedCost engine p q m = .ok
      (finiteQuote rate minimum (202 / 100) cp w pr d
        (p.excelStructure.setupCost.getD 0) (p.excelStructure.profitOverride.getD 0)
        (effectiveMargin p.excelStructure pm) q) := by
  have hs : calculateShippingCost engine
      (JSNum.mul (JSNum.ceil (JSNum.div (.fin q) (.fin cp))) (.fin w)) m
      = .ok (.fin (shippingQ rate minimum w cp q)) := by
    rcases hm with ⟨rfl, rfl, rfl⟩ | ⟨rfl, rfl, rfl⟩
    · rw [calculateShippingCost_DHL, JSNum.div_fin_of _ _ hcp]
      rfl
    · rw [calculateShippingCost_SEA, JSNum.div_fin_of _ _ hcp]
      rfl
  rw [calculateLandedCost_ok hp.casePack hp.weight hp.price hp.duties hs
    (selectMargin_of_profitMargin hp.profitMargin)]
  have h100 : (100 : ℚ) ≠ 0 := by norm_num
  congr 1
  unfold assemble finiteQuote unitPriceQ effectiveMargin
  cases p.excelStructure.setupCost <;> cases p.excelStructure.profitOverride <;>
    simp only [JSNum.div_fin_of _ _ hcp, JSNum.div_fin_of _ _ hq, JSNum.div_fin_of _ _ h100,
      JSNum.mul_fin, JSNum.add_fin, JSNum.sub_fin, round2_fin, Option.getD, engine] <;>
    rfl

/-! ## Validation -/

theorem absentOrNotPositive_eq_false (f : Option ℚ) :
    absentOrNotPositive f = false ↔ ∃ v, f = some v ∧ 0 < v := by
  cases f with
  | none => simp [absentOrNotPositive]
  | some v => simp [absentOrNotPositive]

theorem absentOrNegative_eq_false (f : Option ℚ) :
    absentOrNegative f = false ↔ ∃ v, f = some v ∧ 0 ≤ v := by
  cases f with
  | none => simp [absentOrNegative]
  | some v => simp [absentOrNegative]

/-- The error list as five conditional pushes. -/
theorem validateProduct_errors_eq (p : Product) :
    (validateProduct p).errors =
      pushIf (absentOrNegative p.excelStructure.profitMargin)
        "Profit Margin must be 0 or greater"
        (pushIf (absentOrNegative p.excelStructure.duties) "Duties must be 0 or greater"
          (pushIf (absentOrNotPositive p.excelStructure.price) "Price must be greater than 0"
            (pushIf (absentOrNotPositive p.excelStructure.weight)
              "Weight must be greater than 0"
              (pushIf (absentOrNotPositive p.excelStructure.casePack)
                "Case Pack must be greater than 0" [])))) := rfl

theorem validateProduct_isValid_eq (p : Product) :
    (validateProduct p).isValid = ((validateProduct p).errors.length == 0) := rfl

/-- The product is accepted exactly when none of the five conditions fires. -/
theorem validateProduct_isValid_conds (p : Product) :
    (validateProduct p).isValid = true ↔
      absentOrNotPositive p.excelStructure.casePack = false ∧
      absentOrNotPositive p.excelStructure.weight = false ∧
      absentOrNotPositive p.excelStructure.price = false ∧
      absentOrNegative p.excelStructure.duties = false ∧
      absentOrNegative p.excelStructure.profitMargin = false := by
  rw [validateProduct_isValid_eq, validateProduct_errors_eq]
  cases absentOrNotPositive p.excelStructure.casePack <;>
    cases absentOrNotPositive p.excelStructure.weight <;>
    cases absentOrNotPositive p.excelStructure.price <;>
    cases absentOrNegative p.excelStructure.duties <;>
    cases absentOrNegative p.excelStructure.profitMargin <;>
    simp [pushIf]

/-- An accepted product carries the five cost fields within their bounds. -/
theorem validateProduct_accepts {p : Product} (h : (validateProduct p).isValid = true) :
    ∃ cp w pr d pm, HasCostFields p cp w pr d pm ∧
      0 < cp ∧ 0 < w ∧ 0 < pr ∧ 0 ≤ d ∧ 0 ≤ pm := by
  obtain ⟨h1, h2, h3, h4, h5⟩ := (validateProduct_isValid_conds p).mp h
  obtain ⟨cp, e1, b1⟩ := (absentOrNotPositive_eq_false _).mp h1
  obtain ⟨w, e2, b2⟩ := (absentOrNotPositive_eq_false _).mp h2
  obtain ⟨pr, e3, b3⟩ := (absentOrNotPositive_eq_false _).mp h3
  obtain ⟨d, e4, b4⟩ := (absentOrNegative_eq_false _).mp h4
  obtain ⟨pm, e5, b5⟩ := (absentOrNegative_eq_false _).mp h5
  exact ⟨cp, w, pr, d, pm, ⟨e1, e2, e3, e4, e5⟩, b1, b2, b3, b4, b5⟩

/-- C11: `validateProduct` returns `isValid = true` if and only if all five
hold: casePack is present and > 0, weight is present and > 0, price is present
and > 0, duties is present and >= 0, and profitMargin is present and >= 0. -/
theorem validateProduct_isValid_iff (p : Product) :
    (validateProduct p).isValid = true ↔
      (∃ v, p.excelStructure.casePack = some v ∧ 0 < v) ∧
      (∃ v, p.excelStructure.weight = some v ∧ 0 < v) ∧
      (∃ v, p.excelStructure.price = some v ∧ 0 < v) ∧
      (∃ v, p.excelStructure.duties = some v ∧ 0 ≤ v) ∧
      (∃ v, p.excelStructure.profitMargin = some v ∧ 0 ≤ v) := by
  rw [validateProduct_isValid_conds, absentOrNotPositive_eq_false,
    absentOrNotPositive_eq_false, absentOrNotPositive_eq_false, absentOrNegative_eq_false,
    absentOrNegative_eq_false]

/-- C12: `validateProduct` accumulates every violation. The returned errors
are a sublist of the five messages in the order case pack, weight, price,
duties, profit margin (so each occurs at most once, in that order); a message
is in the list exactly when its check is violated; a product violating all
five checks gets all five messages in that order; and `isValid` is true
exactly when the list is empty. -/
theorem validateProduct_errors_accumulate (p : Product) :
    List.Sublist (validateProduct p).errors
      ["Case Pack must be greater than 0", "Weight must be greater than 0",
       "Price must be greater than 0", "Duties must be 0 or greater",
       "Profit Margin must be 0 or greater"] ∧
    ("Case Pack must be greater than 0" ∈ (validateProduct p).errors ↔
      ¬ ∃ v, p.excelStructure.casePack = some v ∧ 0 < v) ∧
    ("Weight must be greater than 0" ∈ (validateProduct p).errors ↔
      ¬ ∃ v, p.excelStructure.weight = some v ∧ 0 < v) ∧
    ("Price must be greater than 0" ∈ (validateProduct p).errors ↔
      ¬ ∃ v, p.excelStructure.price = some v ∧ 0 < v) ∧
    ("Duties must be 0 or greater" ∈ (validateProduct p).errors ↔
      ¬ ∃ v, p.excelStructure.duties = some v ∧ 0 ≤ v) ∧
    ("Profit Margin must be 0 or greater" ∈ (validateProduct p).errors ↔
      ¬ ∃ v, p.excelStructure.profitMargin = some v ∧ 0 ≤ v) ∧
    (((¬ ∃ v, p.excelStructure.casePack = some v ∧ 0 < v) ∧
      (¬ ∃ v, p.excelStructure.weight = some v ∧ 0 < v) ∧
      (¬ ∃ v, p.excelStructure.price = some v ∧ 0 < v) ∧
      (¬ ∃ v, p.excelStructure.duties = some v ∧ 0 ≤ v) ∧
      (¬ ∃ v, p.excelStructure.profitMargin = some v ∧ 0 ≤ v)) →
      (validateProduct p).errors =
        ["Case Pack must be greater than 0", "Weight must be greater than 0",
         "Price must be greater than 0", "Duties must be 0 or greater",
         "Profit Margin must be 0 or greater"]) ∧
    ((validateProduct p).isValid = true ↔ (validateProduct p).errors = []) := by
  rw [validateProduct_isValid_eq, validateProduct_errors_eq]
  simp only [← absentOrNotPositive_eq_false, ← absentOrNegative_eq_false]
  cases absentOrNotPositive p.excelStructure.casePack <;>
    cases absentOrNotPositive p.excelStructure.weight <;>
    cases absentOrNotPositive p.excelStructure.price <;>
    cases absentOrNegative p.excelStructure.duties <;>
    cases absentOrNegative p.excelStructure.profitMargin
  all_goals simp [pushIf]
  all_goals decide

/-! ## The pricing summary -/

theorem calculateAllPricing_ok {eng : Engine} {p : Product} {q : ℚ}
    {dhl sea : PricingResult} (h1 : calculateLandedCost eng p q "DHL" = .ok dhl)
    (h2 : calculateLandedCost eng p q "SEA" = .ok sea) :
    calculateAllPricing eng p q
      = .ok { byDHL := dhl, bySEA := sea, quantity := q, productName := p.name } := by
  simp [calculateAllPricing, h1, h2, bind, Except.bind, pure, Except.pure]

/-- An accepted product is priced for both methods. -/
theorem calculateAllPricing_of_valid {p : Product} (q : ℚ)
    (h : (validateProduct p).isValid = true) :
    ∃ a, calculateAllPricing engine p q = .ok a := by
  obtain ⟨cp, w, pr, d, pm, hp, -⟩ := validateProduct_accepts h
  obtain ⟨s1, -, h1⟩ := calculateLandedCost_configured q hp (Or.inl rfl)
  obtain ⟨s2, -, h2⟩ := calculateLandedCost_configured q hp (Or.inr rfl)
  exact ⟨_, calculateAllPricing_ok h1 h2⟩

/-- C13 (counterexample): a product accepted by `validateProduct` that has no
`prodLeadTime`: the pricing is computed, yet `getPricingSummary` throws a
`TypeError` and returns no summary. -/
theorem getPricingSummary_without_leadTime_throws :
    (validateProduct withoutLeadTime).isValid = true ∧
    (∃ a, calculateAllPricing engine withoutLeadTime 300 = .ok a) ∧
    ∀ numberToString : ℚ → String,
      getPricingSummary numberToString engine withoutLeadTime 300 = .error .typeError := by
  have hv : (validateProduct withoutLeadTime).isValid = true := by
    rw [validateProduct_isValid_conds]
    simp [withoutLeadTime, absentOrNotPositive, absentOrNegative]
  obtain ⟨a, ha⟩ := calculateAllPricing_of_valid 300 hv
  refine ⟨hv, ⟨a, ha⟩, ?_⟩
  intro nts
  have hlead : withoutLeadTime.excelStructure.prodLeadTime = none := rfl
  unfold getPricingSummary
  simp [hv, ha, hlead, bind, Except.bind, value]

/-- C13 (amended): `getPricingSummary` guards the computation with
`validateProduct`. For a rejected product it returns the error object with all
the validation errors and no pricing; for an accepted product that has a
`prodLeadTime` it returns a summary whose `details` is the result of
`calculateAllPricing(product, quantity)`. -/
theorem getPricingSummary_guard (numberToString : ℚ → String) (p : Product) (q : ℚ) :
    ((validateProduct p).isValid = false →
      getPricingSummary numberToString engine p q
        = .ok (.invalid "Invalid product data" (validateProduct p).errors)) ∧
    ((validateProduct p).isValid = true →
      ∀ lead, p.excelStructure.prodLeadTime = some lead →
      ∃ a, calculateAllPricing engine p q = .ok a ∧
        getPricingSummary numberToString engine p q
          = .ok (.summary p.name q
              { byDHL := methodSummary numberToString a.byDHL lead,
                bySEA := methodSummary numberToString a.bySEA lead } a)) := by
  constructor
  · intro hv
    unfold getPricingSummary
    simp [hv, pure, Except.pure]
  · intro hv lead hlead
    obtain ⟨a, ha⟩ := calculateAllPricing_of_valid q hv
    refine ⟨a, ha, ?_⟩
    unfold getPricingSummary
    simp [hv, ha, hlead, bind, Except.bind, value, pure, Except.pure]

/-- C13 (amended), at a product violating all five checks, for which
`calculateAllPricing` itself would throw, and at the notepads. -/
theorem getPricingSummary_guard_witness :
    (getPricingSummary toString engine allWrong 300
        = .ok (.invalid "Invalid product data" (validateProduct allWrong).errors) ∧
      calculateAllPricing engine allWrong 300 = .error .typeError) ∧
    ∃ a, calculateAllPricing engine notepads 300 = .ok a ∧
      getPricingSummary toString engine notepads 300
        = .ok (.summary notepads.name 300
            { byDHL := methodSummary toString a.byDHL 15,
              bySEA := methodSummary toString a.bySEA 15 } a) := by
  have hbad : (validateProduct allWrong).isValid = false := by
    cases h : (validateProduct allWrong).isValid with
    | false => rfl
    | true =>
      have := (validateProduct_isValid_conds allWrong).mp h
      simp [allWrong, absentOrNotPositive] at this
  have hgood : (validateProduct notepads).isValid = true := by
    rw [validateProduct_isValid_conds]
    simp [notepads, absentOrNotPositive, absentOrNegative]
  exact ⟨⟨(getPricingSummary_guard toString allWrong 300).1 hbad, rfl⟩,
    (getPricingSummary_guard toString notepads 300).2 hgood 15 rfl⟩

/-- C14: for every product that `validateProduct` accepts and every integer
quantity > 0, `calculateLandedCost` with DHL or SEA divides by the case pack
size and by the quantity only, both non-zero, returns a pricing result without
error, and every number in the result is finite. -/
theorem calculateLandedCost_of_valid (p : Product) (quantity : ℤ) (m : String)
    (hv : (validateProduct p).isValid = true) (hq : 0 < quantity)
    (hm : m = "DHL" ∨ m = "SEA") :
    ∃ cp r, p.excelStructure.casePack = some cp ∧ cp ≠ 0 ∧ (quantity : ℚ) ≠ 0 ∧
      calculateLandedCost engine p (quantity : ℚ) m = .ok r ∧
      r.cartons.isFinite = true ∧ r.totalWeight.isFinite = true ∧
      r.shippingCostUSD.isFinite = true ∧ r.dutiesAmountUSD.isFinite = true ∧
      r.setupCostUSD.isFinite = true ∧ r.landedCostPerUnitUSD.isFinite = true ∧
      r.unitPriceUSD.isFinite = true ∧ r.unitPriceBBD.isFinite = true ∧
      r.totalPriceBBD.isFinite = true ∧ r.totalGrossProfitBBD.isFinite = true := by
  obtain ⟨cp, w, pr, d, pm, hp, hcp, -⟩ := validateProduct_accepts hv
  have hq0 : (quantity : ℚ) ≠ 0 := by exact_mod_cast hq.ne'
  have hrate : ∃ rate minimum : ℚ, (m = "DHL" ∧ rate = 15 / 100 ∧ minimum = 25) ∨
      (m = "SEA" ∧ rate = 8 / 100 ∧ minimum = 15) := by
    rcases hm with h | h
    · exact ⟨_, _, Or.inl ⟨h, rfl, rfl⟩⟩
    · exact ⟨_, _, Or.inr ⟨h, rfl, rfl⟩⟩
  obtain ⟨rate, minimum, hrm⟩ := hrate
  exact ⟨cp, _, hp.casePack, hcp.ne', hq0,
    calculateLandedCost_finite (quantity : ℚ) hp hrm hcp.ne' hq0,
    rfl, rfl, rfl, rfl, rfl, rfl, rfl, rfl, rfl, rfl⟩

/-- C14, at 300 notepads by SEA. -/
theorem calculateLandedCost_of_valid_witness :
    ∃ cp r, notepads.excelStructure.casePack = some cp ∧ cp ≠ 0 ∧ ((300 : ℤ) : ℚ) ≠ 0 ∧
      calculateLandedCost engine notepads ((300 : ℤ) : ℚ) "SEA" = .ok r ∧
      r.cartons.isFinite = true ∧ r.totalWeight.isFinite = true ∧
      r.shippingCostUSD.isFinite = true ∧ r.dutiesAmountUSD.isFinite = true ∧
      r.setupCostUSD.isFinite = true ∧ r.landedCostPerUnitUSD.isFinite = true ∧
      r.unitPriceUSD.isFinite = true ∧ r.unitPriceBBD.isFinite = true ∧
      r.totalPriceBBD.isFinite = true ∧ r.totalGrossProfitBBD.isFinite = true :=
  calculateLandedCost_of_valid notepads 300 "SEA"
    (by
      rw [validateProduct_isValid_conds]
      simp [notepads, absentOrNotPositive, absentOrNegative])
    (by norm_num) (Or.inr rfl)

/-! ## The end-to-end scenario -/

theorem round2Q_eq_of (a : ℚ) (z : ℤ)
    (h : (z : ℚ) ≤ a * 100 + 1 / 2 ∧ a * 100 + 1 / 2 < z + 1) :
    round2Q a = (z : ℚ) / 100 := by
  unfold round2Q
  rw [Int.floor_eq_iff.mpr h]

/-- The margin of a product without a positive override is its default. -/
theorem effectiveMargin_of_no_override {excel : ExcelStructure} (pm : ℚ)
    (h : excel.profitOverride.getD 0 = 0) : effectiveMargin excel pm = pm := by
  unfold effectiveMargin
  cases ho : excel.profitOverride with
  | none => rfl
  | some o =>
    rw [ho] at h
    have : o = 0 := h
    subst this
    simp

/-- The quotation of the scenario: 300 units by DHL of a product with price
1.10, case pack 100, carton weight 15, duties 20, margin 30, no override and
no setup cost. -/
theorem scenario_quote {p : Product} (hp : HasCostFields p 100 15 (110 / 100) 20 30)
    (hsc : p.excelStructure.setupCost.getD 0 = 0)
    (hov : p.excelStructure.profitOverride.getD 0 = 0) :
    calculateLandedCost engine p 300 "DHL" = .ok notepadsQuote := by
  rw [calculateLandedCost_finite 300 hp (Or.inl ⟨rfl, rfl, rfl⟩) (by norm_num)
    (by norm_num), hsc, hov, effectiveMargin_of_no_override 30 hov]
  have hceil : ⌈(300 : ℚ) / 100⌉ = 3 := by
    rw [Int.ceil_eq_iff]
    norm_num
  have hship : shippingQ (15 / 100) 25 15 100 300 = 25 := by
    unfold shippingQ
    rw [hceil]
    norm_num
  have hunit : unitPriceQ (15 / 100) 25 100 15 (110 / 100) 20 0 30 300 = 5473 / 3000 := by
    unfold unitPriceQ
    rw [hship]
    norm_num
  simp only [finiteQuote, hceil, hship, hunit, notepadsQuote]
  rw [round2Q_eq_of _ 369 (by norm_num), round2Q_eq_of _ 110555 (by norm_num),
    round2Q_eq_of _ 30563 (by norm_num)]
  norm_num

/-- C15: the end-to-end scenario. For the product with price 1.10, case pack
100, carton weight 15, duties 20, profit margin 30, profit override 0 and setup
cost 0, quantity 300 and method DHL at exchange rate 2.02, `calculateLandedCost`
returns cartons = 3, totalWeight = 45, shippingCostUSD = 25 (the minimum, since
45 × 0.15 = 6.75 < 25), dutiesAmountUSD = 0.22 and unitPriceBBD = 3.69. -/
theorem calculateLandedCost_scenario (p : Product)
    (hp : HasCostFields p 100 15 (110 / 100) 20 30)
    (hsc : p.excelStructure.setupCost.getD 0 = 0)
    (hov : p.excelStructure.profitOverride.getD 0 = 0) :
    engine.exchangeRate = 202 / 100 ∧
    ∃ r, calculateLandedCost engine p 300 "DHL" = .ok r ∧
      r.cartons = .fin 3 ∧ r.totalWeight = .fin 45 ∧
      r.shippingCostUSD = .fin 25 ∧
      ((45 : ℚ) * (15 / 100) = 675 / 100 ∧ (675 / 100 : ℚ) < 25) ∧
      r.dutiesAmountUSD = .fin (22 / 100) ∧
      r.unitPriceBBD = .fin (369 / 100) :=
  ⟨rfl, notepadsQuote, scenario_quote hp hsc hov, rfl, rfl, rfl, by norm_num, rfl, rfl⟩

/-- C15, at the scenario product. -/
theorem calculateLandedCost_scenario_witness :
    engine.exchangeRate = 202 / 100 ∧
    ∃ r, calculateLandedCost engine scenario 300 "DHL" = .ok r ∧
      r.cartons = .fin 3 ∧ r.totalWeight = .fin 45 ∧
      r.shippingCostUSD = .fin 25 ∧
      ((45 : ℚ) * (15 / 100) = 675 / 100 ∧ (675 / 100 : ℚ) < 25) ∧
      r.dutiesAmountUSD = .fin (22 / 100) ∧
      r.unitPriceBBD = .fin (369 / 100) :=
  calculateLandedCost_scenario scenario ⟨rfl, rfl, rfl, rfl, rfl⟩ rfl rfl

/-- C16 (counterexample): in the scenario the returned total is 1105.55, not
1107.00. -/
theorem scenario_total_differs_from_1107 :
    ∃ r, calculateLandedCost engine scenario 300 "DHL" = .ok r ∧
      r.totalPriceBBD = .fin (110555 / 100) ∧ r.totalPriceBBD ≠ .fin 1107 := by
  refine ⟨notepadsQuote, scenario_quote ⟨rfl, rfl, rfl, rfl, rfl⟩ rfl rfl, rfl, ?_⟩
  intro h
  have h2 : (110555 / 100 : ℚ) = 1107 := JSNum.fin.inj h
  norm_num at h2

/-- C16 (amended): in the scenario `calculateLandedCost` returns
totalPriceBBD = 1105.55, the rounding of the unrounded unit price in BBD
(5473/3000 × 2.02 = 3.6851533…) times 300; the returned unit price 3.69 times
300 would be 1107.00. -/
theorem scenario_totalPriceBBD (p : Product)
    (hp : HasCostFields p 100 15 (110 / 100) 20 30)
    (hsc : p.excelStructure.setupCost.getD 0 = 0)
    (hov : p.excelStructure.profitOverride.getD 0 = 0) :
    ∃ r, calculateLandedCost engine p 300 "DHL" = .ok r ∧
      r.totalPriceBBD = .fin (110555 / 100) ∧
      r.unitPriceUSD = .fin (5473 / 3000) ∧
      r.totalPriceBBD = round2 (.fin (5473 / 3000 * (202 / 100) * 300)) ∧
      r.unitPriceBBD = .fin (369 / 100) ∧
      round2 (.fin (369 / 100 * 300)) = .fin 1107 := by
  refine ⟨notepadsQuote, scenario_quote hp hsc hov, rfl, rfl, ?_, rfl, ?_⟩
  · rw [round2_fin, round2Q_eq_of _ 110555 (by norm_num)]
    rfl
  · rw [round2_fin, round2Q_eq_of _ 110700 (by norm_num)]
    norm_num

/-- C16 (amended), at the scenario product. -/
theorem scenario_totalPriceBBD_witness :
    ∃ r, calculateLandedCost engine scenario 300 "DHL" = .ok r ∧
      r.totalPriceBBD = .fin (110555 / 100) ∧
      r.unitPriceUSD = .fin (5473 / 3000) ∧
      r.totalPriceBBD = round2 (.fin (5473 / 3000 * (202 / 100) * 300)) ∧
      r.unitPriceBBD = .fin (369 / 100) ∧
      round2 (.fin (369 / 100 * 300)) = .fin 1107 :=
  scenario_totalPriceBBD scenario ⟨rfl, rfl, rfl, rfl, rfl⟩ rfl rfl

/-! ## Monotonicity -/

theorem shippingQ_mono {rate minimum w cp q1 q2 : ℚ} (hrate : 0 ≤ rate) (hw : 0 ≤ w)
    (hcp : 0 < cp) (h : q1 ≤ q2) :
    shippingQ rate minimum w cp q1 ≤ shippingQ rate minimum w cp q2 := by
  unfold shippingQ
  have hc : ⌈q1 / cp⌉ ≤ ⌈q2 / cp⌉ := Int.ceil_mono (div_le_div_of_nonneg_right h hcp.le)
  have hcq : ((⌈q1 / cp⌉ : ℤ) : ℚ) ≤ ((⌈q2 / cp⌉ : ℤ) : ℚ) := by exact_mod_cast hc
  exact max_le_max
    (mul_le_mul_of_nonneg_right (mul_le_mul_of_nonneg_right hcq hw) hrate) le_rfl

theorem shippingQ_minimum_le (rate minimum w cp q : ℚ) :
    minimum ≤ shippingQ rate minimum w cp q := le_max_right _ _

/-- The unrounded total in USD: the per-unit shipping and setup shares add up to
the shipping cost and the setup cost. -/
theorem unitPriceQ_mul_quantity (rate minimum cp w pr d sc mg q : ℚ) (hq : q ≠ 0) :
    unitPriceQ rate minimum cp w pr d sc mg q * q
      = ((pr + pr * (d / 100)) * q + shippingQ rate minimum w cp q + sc)
        * (1 + mg / 100) := by
  unfold unitPriceQ
  field_simp
  ring

/-- The rate and minimum of a configured method. -/
theorem configured_rate {m : String} (hm : m = "DHL" ∨ m = "SEA") :
    ∃ rate minimum : ℚ, ((m = "DHL" ∧ rate = 15 / 100 ∧ minimum = 25) ∨
      (m = "SEA" ∧ rate = 8 / 100 ∧ minimum = 15)) ∧ 0 ≤ rate ∧ 0 ≤ minimum := by
  rcases hm with h | h
  · exact ⟨15 / 100, 25, Or.inl ⟨h, rfl, rfl⟩, by norm_num, by norm_num⟩
  · exact ⟨8 / 100, 15, Or.inr ⟨h, rfl, rfl⟩, by norm_num, by norm_num⟩

/-- C17: for every valid product (price > 0, case pack > 0, carton weight > 0,
duties >= 0, effective margin >= 0), each of the methods DHL and SEA and all
integer quantities 1 <= q1 <= q2, both calls return a finite totalPriceBBD and
the one for q2 is >= the one for q1. -/
theorem totalPriceBBD_monotone_in_quantity (p : Product) (cp w pr d pm : ℚ)
    (q1 q2 : ℤ) (m : String) (hp : HasCostFields p cp w pr d pm)
    (hpr : 0 < pr) (hcp : 0 < cp) (hw : 0 < w) (hd : 0 ≤ d)
    (hmg : 0 ≤ effectiveMargin p.excelStructure pm) (hm : m = "DHL" ∨ m = "SEA")
    (h1 : 1 ≤ q1) (h12 : q1 ≤ q2) :
    ∃ r1 r2 t1 t2, calculateLandedCost engine p (q1 : ℚ) m = .ok r1 ∧
      calculateLandedCost engine p (q2 : ℚ) m = .ok r2 ∧
      r1.totalPriceBBD = .fin t1 ∧ r2.totalPriceBBD = .fin t2 ∧ t1 ≤ t2 := by
  obtain ⟨rate, minimum, hrm, hrate, -⟩ := configured_rate hm
  have hq1 : (0 : ℚ) < (q1 : ℚ) := by exact_mod_cast (by omega : 0 < q1)
  have hq2 : (0 : ℚ) < (q2 : ℚ) := by exact_mod_cast (by omega : 0 < q2)
  have hq12 : (q1 : ℚ) ≤ (q2 : ℚ) := by exact_mod_cast h12
  refine ⟨_, _, _, _, calculateLandedCost_finite (q1 : ℚ) hp hrm hcp.ne' hq1.ne',
    calculateLandedCost_finite (q2 : ℚ) hp hrm hcp.ne' hq2.ne', rfl, rfl, ?_⟩
  apply round2Q_mono
  rw [mul_right_comm _ (202 / 100 : ℚ) (q1 : ℚ), mul_right_comm _ (202 / 100 : ℚ) (q2 : ℚ),
    unitPriceQ_mul_quantity _ _ _ _ _ _ _ _ _ hq1.ne',
    unitPriceQ_mul_quantity _ _ _ _ _ _ _ _ _ hq2.ne']
  have hbase : 0 ≤ pr + pr * (d / 100) := by positivity
  have hship : shippingQ rate minimum w cp q1 ≤ shippingQ rate minimum w cp q2 :=
    shippingQ_mono hrate hw.le hcp hq12
  have hfac : 0 ≤ 1 + effectiveMargin p.excelStructure pm / 100 := by positivity
  have hsum : (pr + pr * (d / 100)) * (q1 : ℚ) + shippingQ rate minimum w cp q1
        + p.excelStructure.setupCost.getD 0
      ≤ (pr + pr * (d / 100)) * (q2 : ℚ) + shippingQ rate minimum w cp q2
        + p.excelStructure.setupCost.getD 0 := by
    have := mul_le_mul_of_nonneg_left hq12 hbase
    linarith
  exact mul_le_mul_of_nonneg_right (mul_le_mul_of_nonneg_right hsum hfac) (by norm_num)

/-- C17, at the notepads by DHL for 100 and 101 units. -/
theorem totalPriceBBD_monotone_in_quantity_witness :
    ∃ r1 r2 t1 t2, calculateLandedCost engine notepads ((100 : ℤ) : ℚ) "DHL" = .ok r1 ∧
      calculateLandedCost engine notepads ((101 : ℤ) : ℚ) "DHL" = .ok r2 ∧
      r1.totalPriceBBD = .fin t1 ∧ r2.totalPriceBBD = .fin t2 ∧ t1 ≤ t2 :=
  totalPriceBBD_monotone_in_quantity notepads 100 15 (110 / 100) 20 30 100 101
    "DHL" notepads_fields (by norm_num) (by norm_num) (by norm_num) (by norm_num)
    (by simp [effectiveMargin, notepads]) (Or.inl rfl) (by norm_num) (by norm_num)

/-- C18: for every product with case pack > 0, effective margin >= 0 and setup
cost >= 0 (in particular every valid one; the bounds on price, carton weight
and duties are not needed), each of the methods DHL and SEA and all integer
quantities 1 <= q1 <= q2, both calls return a result, and when the two results
have the same number of cartons they have the same shippingCostUSD and finite
unit prices in BBD with the one for q2 <= the one for q1. -/
theorem unitPriceBBD_antitone_within_cartons (p : Product) (cp w pr d pm : ℚ)
    (q1 q2 : ℤ) (m : String) (hp : HasCostFields p cp w pr d pm) (hcp : 0 < cp)
    (hmg : 0 ≤ effectiveMargin p.excelStructure pm)
    (hsc : 0 ≤ p.excelStructure.setupCost.getD 0) (hm : m = "DHL" ∨ m = "SEA")
    (h1 : 1 ≤ q1) (h12 : q1 ≤ q2) :
    ∃ r1 r2, calculateLandedCost engine p (q1 : ℚ) m = .ok r1 ∧
      calculateLandedCost engine p (q2 : ℚ) m = .ok r2 ∧
      (r1.cartons = r2.cartons →
        r1.shippingCostUSD = r2.shippingCostUSD ∧
        ∃ u1 u2, r1.unitPriceBBD = .fin u1 ∧ r2.unitPriceBBD = .fin u2 ∧ u2 ≤ u1) := by
  obtain ⟨rate, minimum, hrm, hrate, hmin⟩ := configured_rate hm
  have hq1 : (0 : ℚ) < (q1 : ℚ) := by exact_mod_cast (by omega : 0 < q1)
  have hq2 : (0 : ℚ) < (q2 : ℚ) := by exact_mod_cast (by omega : 0 < q2)
  have hq12 : (q1 : ℚ) ≤ (q2 : ℚ) := by exact_mod_cast h12
  refine ⟨_, _, calculateLandedCost_finite (q1 : ℚ) hp hrm hcp.ne' hq1.ne',
    calculateLandedCost_finite (q2 : ℚ) hp hrm hcp.ne' hq2.ne', ?_⟩
  intro hcart
  have hceil : ((⌈(q1 : ℚ) / cp⌉ : ℤ) : ℚ) = ((⌈(q2 : ℚ) / cp⌉ : ℤ) : ℚ) :=
    JSNum.fin.inj hcart
  have hship : shippingQ rate minimum w cp q1 = shippingQ rate minimum w cp q2 := by
    unfold shippingQ
    rw [hceil]
  refine ⟨congrArg JSNum.fin hship, _, _, rfl, rfl, ?_⟩
  apply round2Q_mono
  apply mul_le_mul_of_nonneg_right _ (by norm_num)
  unfold unitPriceQ
  rw [hship]
  have hS : 0 ≤ shippingQ rate minimum w cp q2 :=
    hmin.trans (shippingQ_minimum_le _ _ _ _ _)
  have hfac : 0 ≤ 1 + effectiveMargin p.excelStructure pm / 100 := by positivity
  apply mul_le_mul_of_nonneg_right _ hfac
  have e1 := div_le_div_of_nonneg_left hS hq1 hq12
  have e2 := div_le_div_of_nonneg_left hsc hq1 hq12
  linarith

/-- C18, at the notepads by DHL for 101 and 200 units (2 cartons each). -/
theorem unitPriceBBD_antitone_within_cartons_witness :
    ∃ r1 r2, calculateLandedCost engine notepads ((101 : ℤ) : ℚ) "DHL" = .ok r1 ∧
      calculateLandedCost engine notepads ((200 : ℤ) : ℚ) "DHL" = .ok r2 ∧
      (r1.cartons = r2.cartons →
        r1.shippingCostUSD = r2.shippingCostUSD ∧
        ∃ u1 u2, r1.unitPriceBBD = .fin u1 ∧ r2.unitPriceBBD = .fin u2 ∧ u2 ≤ u1) :=
  unitPriceBBD_antitone_within_cartons notepads 100 15 (110 / 100) 20 30 101 200
    "DHL" notepads_fields (by norm_num)
    (by simp [effectiveMargin, notepads]) (by simp [notepads]) (Or.inl rfl)
    (by norm_num) (by norm_num)

/-! ## Dependence on the inputs -/

/-- The call as a chain of its six fallible steps. -/
theorem calculateLandedCost_eq_bind (eng : Engine) (p : Product) (q : ℚ) (m : String) :
    calculateLandedCost eng p q m =
      (value p.excelStructure.casePack).bind fun cp =>
      (value p.excelStructure.weight).bind fun w =>
      (calculateShippingCost eng
        (JSNum.mul (JSNum.ceil (JSNum.div (.fin q) (.fin cp))) (.fin w)) m).bind fun s =>
      (value p.excelStructure.price).bind fun pr =>
      (value p.excelStructure.duties).bind fun d =>
      (selectMargin p.excelStructure).bind fun mg =>
      .ok (assemble eng p.excelStructure cp w pr d s mg q) := by
  obtain ⟨name, ⟨cpo, wo, pro, sco, duo, poo, pmo, lead⟩⟩ := p
  rcases cpo with _ | cp
  · rfl
  rcases wo with _ | w
  · rfl
  cases hs : calculateShippingCost eng
      (JSNum.mul (JSNum.ceil (JSNum.div (.fin q) (.fin cp))) (.fin w)) m with
  | error e => simp [calculateLandedCost, value, bind, Except.bind, hs]
  | ok s =>
    rcases pro with _ | pr
    · simp [calculateLandedCost, value, bind, Except.bind, hs]
    rcases duo with _ | d
    · simp [calculateLandedCost, value, bind, Except.bind, hs]
    rcases poo with _ | o
    · rcases pmo with _ | pm0
      · simp [calculateLandedCost, value, bind, Except.bind, hs, selectMargin]
      · simp only [calculateLandedCost, value, bind, Except.bind, hs, selectMargin]
        rfl
    · by_cases ho : o > 0
      · simp only [calculateLandedCost, value, bind, Except.bind, hs, selectMargin, ho,
          if_true, pure, Except.pure]
        rfl
      · rcases pmo with _ | pm0
        · simp [calculateLandedCost, value, bind, Except.bind, hs, selectMargin, ho]
        · simp only [calculateLandedCost, value, bind, Except.bind, hs, selectMargin, ho,
            if_false]
          rfl

/-- The shipping cost reads the rate table only. -/
theorem calculateShippingCost_congr {e1 e2 : Engine}
    (h : e1.shippingRates = e2.shippingRates) (tw : JSNum) (m : String) :
    calculateShippingCost e1 tw m = calculateShippingCost e2 tw m := by
  unfold calculateShippingCost lookupRate
  rw [h]

/-- C19: two engines that differ only in `exchangeRate` fail on the same inputs
with the same error, and where they return results, the results agree on
cartons, totalWeight, shippingCostUSD, dutiesAmountUSD, setupCostUSD,
landedCostPerUnitUSD, unitPriceUSD, profitMargin and profitOverride. -/
theorem calculateLandedCost_exchangeRate_frame (e1 e2 : Engine) (p : Product) (q : ℚ)
    (m : String) (h : e1.shippingRates = e2.shippingRates) :
    (∀ err, calculateLandedCost e1 p q m = .error err ↔
      calculateLandedCost e2 p q m = .error err) ∧
    ∀ r1, calculateLandedCost e1 p q m = .ok r1 →
      ∃ r2, calculateLandedCost e2 p q m = .ok r2 ∧
        r1.cartons = r2.cartons ∧ r1.totalWeight = r2.totalWeight ∧
        r1.shippingCostUSD = r2.shippingCostUSD ∧
        r1.dutiesAmountUSD = r2.dutiesAmountUSD ∧
        r1.setupCostUSD = r2.setupCostUSD ∧
        r1.landedCostPerUnitUSD = r2.landedCostPerUnitUSD ∧
        r1.unitPriceUSD = r2.unitPriceUSD ∧
        r1.profitMargin = r2.profitMargin ∧
        r1.profitOverride = r2.profitOverride := by
  rw [calculateLandedCost_eq_bind e1, calculateLandedCost_eq_bind e2]
  simp only [calculateShippingCost_congr h]
  cases value p.excelStructure.casePack with
  | error e => simp [Except.bind]
  | ok cp =>
    simp only [Except.bind]
    cases value p.excelStructure.weight with
    | error e => simp
    | ok w =>
      simp only
      cases calculateShippingCost e2
          (JSNum.mul (JSNum.ceil (JSNum.div (.fin q) (.fin cp))) (.fin w)) m with
      | error e => simp
      | ok s =>
        simp only
        cases value p.excelStructure.price with
        | error e => simp
        | ok pr =>
          simp only
          cases value p.excelStructure.duties with
          | error e => simp
          | ok d =>
            simp only
            cases selectMargin p.excelStructure with
            | error e => simp
            | ok mg =>
              simp only
              refine ⟨by simp, ?_⟩
              intro r1 hr1
              injection hr1 with hr1
              subst hr1
              exact ⟨_, rfl, rfl, rfl, rfl, rfl, rfl, rfl, rfl, rfl, rfl⟩

/-- C19, at the notepads for the engine at 2.02 and the engine at 1.0. -/
theorem calculateLandedCost_exchangeRate_frame_witness :
    engine.shippingRates = engineAtPar.shippingRates ∧
    engine.exchangeRate = 202 / 100 ∧ engineAtPar.exchangeRate = 1 ∧
    ∃ r2, calculateLandedCost engineAtPar notepads 300 "DHL" = .ok r2 ∧
      notepadsQuote.cartons = r2.cartons ∧ notepadsQuote.totalWeight = r2.totalWeight ∧
      notepadsQuote.shippingCostUSD = r2.shippingCostUSD ∧
      notepadsQuote.dutiesAmountUSD = r2.dutiesAmountUSD ∧
      notepadsQuote.setupCostUSD = r2.setupCostUSD ∧
      notepadsQuote.landedCostPerUnitUSD = r2.landedCostPerUnitUSD ∧
      notepadsQuote.unitPriceUSD = r2.unitPriceUSD ∧
      notepadsQuote.profitMargin = r2.profitMargin ∧
      notepadsQuote.profitOverride = r2.profitOverride :=
  ⟨rfl, rfl, rfl,
    (calculateLandedCost_exchangeRate_frame engine engineAtPar notepads 300 "DHL" rfl).2
      notepadsQuote notepads_quote⟩

/-- C20: the outcome of `calculateLandedCost` is determined by the rate table,
the exchange rate, the seven cost fields of the product, the quantity and the
method: two calls that agree on these return identical outcomes (the same
result in every field, or the same error), whatever else differs in the
product; two calls with the same arguments on the same engine are the case
`e1 = e2`, `p1 = p2`. -/
theorem calculateLandedCost_deterministic (e1 e2 : Engine) (p1 p2 : Product) (q : ℚ)
    (m : String) (hrates : e1.shippingRates = e2.shippingRates)
    (hex : e1.exchangeRate = e2.exchangeRate)
    (hcp : p1.excelStructure.casePack = p2.excelStructure.casePack)
    (hw : p1.excelStructure.weight = p2.excelStructure.weight)
    (hpr : p1.excelStructure.price = p2.excelStructure.price)
    (hsc : p1.excelStructure.setupCost = p2.excelStructure.setupCost)
    (hd : p1.excelStructure.duties = p2.excelStructure.duties)
    (hpo : p1.excelStructure.profitOverride = p2.excelStructure.profitOverride)
    (hpm : p1.excelStructure.profitMargin = p2.excelStructure.profitMargin) :
    calculateLandedCost e1 p1 q m = calculateLandedCost e2 p2 q m := by
  have he : e1 = e2 := by
    cases e1
    cases e2
    simp only at hrates hex
    rw [hrates, hex]
  subst he
  rw [calculateLandedCost_eq_bind e1 p1, calculateLandedCost_eq_bind e1 p2]
  unfold selectMargin assemble
  rw [hcp, hw, hpr, hsc, hd, hpo, hpm]

/-- C20, at the notepads and the same cost fields under another name and lead
time. -/
theorem calculateLandedCost_deterministic_witness :
    notepads ≠ relabelled ∧
    calculateLandedCost engine notepads 300 "DHL"
      = calculateLandedCost engine relabelled 300 "DHL" :=
  ⟨by simp [notepads, relabelled],
    calculateLandedCost_deterministic engine engine notepads relabelled 300 "DHL" rfl rfl
      rfl rfl rfl rfl rfl rfl rfl⟩

/-! ## Rounding -/

theorem round2Q_abs_sub_le (a : ℚ) : |round2Q a - a| ≤ 1 / 200 := by
  unfold round2Q
  have h1 : ((⌊a * 100 + 1 / 2⌋ : ℤ) : ℚ) ≤ a * 100 + 1 / 2 := Int.floor_le _
  have h2 : a * 100 + 1 / 2 < ((⌊a * 100 + 1 / 2⌋ : ℤ) : ℚ) + 1 := Int.lt_floor_add_one _
  rw [abs_le]
  constructor <;> linarith

theorem round2Q_hundredths (a : ℚ) : ∃ k : ℤ, round2Q a = (k : ℚ) / 100 :=
  ⟨⌊a * 100 + 1 / 2⌋, rfl⟩

theorem halfCent_fields : HasCostFields halfCent 100 15 1 0 0 :=
  ⟨rfl, rfl, rfl, rfl, rfl⟩

/-- C21 (counterexample): for 100 units of the half-cent product by DHL the
unrounded unit price in BBD is 1.25 × 2.02 = 2.525, so that 100 times it lies
halfway between 252 and 253; the returned unitPriceBBD is 2.53, whose
hundredths count 253 is odd (half-to-even would give 2.52). -/
theorem unitPriceBBD_half_rounds_to_odd :
    ∃ r, calculateLandedCost engine halfCent 100 "DHL" = .ok r ∧
      r.unitPriceUSD = .fin (5 / 4) ∧ r.exchangeRate = .fin (202 / 100) ∧
      (5 / 4 : ℚ) * (202 / 100) * 100 = 252 + 1 / 2 ∧
      r.unitPriceBBD = .fin (253 / 100) ∧ ¬ Even (253 : ℤ) := by
  have hceil : ⌈(100 : ℚ) / 100⌉ = 1 := by
    rw [Int.ceil_eq_iff]
    norm_num
  have hship : shippingQ (15 / 100) 25 15 100 100 = 25 := by
    unfold shippingQ
    rw [hceil]
    norm_num
  have hunit : unitPriceQ (15 / 100) 25 100 15 1 0 0 0 100 = 5 / 4 := by
    unfold unitPriceQ
    rw [hship]
    norm_num
  have hr := calculateLandedCost_finite 100 halfCent_fields
    (Or.inl ⟨rfl, rfl, rfl⟩) (by norm_num) (by norm_num)
  refine ⟨_, hr, ?_, rfl, by norm_num, ?_, by decide⟩
  · show JSNum.fin (unitPriceQ (15 / 100) 25 100 15 1 0 0 0 100) = _
    rw [hunit]
  · show JSNum.fin (round2Q (unitPriceQ (15 / 100) 25 100 15 1 0 0 0 100 * (202 / 100))) = _
    rw [hunit, round2Q_eq_of _ 253 (by norm_num)]
    norm_num

/-- C21 (amended): the rounding `Math.round(x × 100) / 100` is round-half-up:
for every x such that x × 100 lies exactly halfway between the consecutive
integers n and n + 1, the rounded value is (n + 1) / 100, the one towards
positive infinity, whether n + 1 is even or odd. -/
theorem round2_half_up (x : ℚ) (n : ℤ) (h : x * 100 = (n : ℚ) + 1 / 2) :
    round2 (.fin x) = .fin (((n + 1 : ℤ) : ℚ) / 100) := by
  rw [round2_fin, round2Q_eq_of x (n + 1)]
  rw [h]
  push_cast
  constructor <;> linarith

/-- C21 (amended), at 2.525 and at −0.125. -/
theorem round2_half_up_witness :
    ((2525 / 1000 : ℚ) * 100 = ((252 : ℤ) : ℚ) + 1 / 2 ∧
      round2 (.fin (2525 / 1000)) = .fin (((252 + 1 : ℤ) : ℚ) / 100)) ∧
    ((-125 / 1000 : ℚ) * 100 = ((-13 : ℤ) : ℚ) + 1 / 2 ∧
      round2 (.fin (-125 / 1000)) = .fin (((-13 + 1 : ℤ) : ℚ) / 100)) :=
  ⟨⟨by norm_num, round2_half_up (2525 / 1000) 252 (by norm_num)⟩,
    ⟨by norm_num, round2_half_up (-125 / 1000) (-13) (by norm_num)⟩⟩

/-- The result for quantity 0: the notepads by DHL. -/
theorem notepads_zero_quantity :
    ∃ r, calculateLandedCost engine notepads 0 "DHL" = .ok r ∧
      r.unitPriceBBD = .nan ∧ r.totalPriceBBD = .nan ∧ r.totalGrossProfitBBD = .nan := by
  have hs : calculateShippingCost engine
      (JSNum.mul (JSNum.ceil (JSNum.div (.fin 0) (.fin 100))) (.fin 15)) "DHL"
      = .ok (JSNum.max (JSNum.mul (JSNum.mul (JSNum.ceil (JSNum.div (.fin 0) (.fin 100)))
          (.fin 15)) (.fin (15 / 100))) (.fin 25)) :=
    calculateShippingCost_DHL _
  refine ⟨_, calculateLandedCost_ok notepads_fields.casePack notepads_fields.weight
    notepads_fields.price notepads_fields.duties hs
    (selectMargin_of_profitMargin notepads_fields.profitMargin), ?_, ?_, ?_⟩ <;>
  simp [assemble, notepads, JSNum.div, JSNum.add, JSNum.mul, JSNum.sub, JSNum.neg,
    JSNum.max, JSNum.ceil, JSNum.round, round2]

/-- C22 (counterexample): for quantity 0 `calculateLandedCost` returns a result
whose unitPriceBBD, totalPriceBBD and totalGrossProfitBBD are `NaN`, not
multiples of 0.01. -/
theorem rounded_outputs_nan_at_zero_quantity :
    ∃ r, calculateLandedCost engine notepads 0 "DHL" = .ok r ∧
      r.unitPriceBBD = .nan ∧ r.totalPriceBBD = .nan ∧ r.totalGrossProfitBBD = .nan ∧
      ¬ ∃ k : ℤ, r.unitPriceBBD = .fin ((k : ℚ) / 100) := by
  obtain ⟨r, hr, h1, h2, h3⟩ := notepads_zero_quantity
  refine ⟨r, hr, h1, h2, h3, ?_⟩
  rintro ⟨k, hk⟩
  rw [h1] at hk
  cases hk

/-- C22 (amended): whenever `calculateLandedCost` returns a result whose
unitPriceUSD is finite, each of unitPriceBBD, totalPriceBBD and
totalGrossProfitBBD is an integer multiple of 0.01 that differs from its
unrounded value by at most 0.005, while shippingCostUSD, dutiesAmountUSD,
landedCostPerUnitUSD and unitPriceUSD are the computed values themselves,
without rounding. -/
theorem rounded_outputs_of_finite (eng : Engine) (p : Product) (q : ℚ) (m : String)
    (r : PricingResult) (u : ℚ) (h : calculateLandedCost eng p q m = .ok r)
    (hu : r.unitPriceUSD = .fin u) :
    ∃ (pr d : ℚ) (k1 k2 k3 : ℤ),
      p.excelStructure.price = some pr ∧ p.excelStructure.duties = some d ∧
      r.unitPriceBBD = .fin ((k1 : ℚ) / 100) ∧
      |(k1 : ℚ) / 100 - u * eng.exchangeRate| ≤ 1 / 200 ∧
      r.totalPriceBBD = .fin ((k2 : ℚ) / 100) ∧
      |(k2 : ℚ) / 100 - u * eng.exchangeRate * q| ≤ 1 / 200 ∧
      r.totalGrossProfitBBD = .fin ((k3 : ℚ) / 100) ∧
      |(k3 : ℚ) / 100
        - (u * eng.exchangeRate * q - (pr + pr * (d / 100)) * eng.exchangeRate * q)|
        ≤ 1 / 200 ∧
      calculateShippingCost eng r.totalWeight m = .ok r.shippingCostUSD ∧
      r.dutiesAmountUSD = .fin (pr * (d / 100)) ∧
      r.landedCostPerUnitUSD =
        JSNum.add
          (JSNum.add (JSNum.add (.fin pr) r.dutiesAmountUSD)
            (JSNum.div r.shippingCostUSD (.fin q)))
          (JSNum.div r.setupCostUSD (.fin q)) ∧
      r.unitPriceUSD =
        JSNum.mul r.landedCostPerUnitUSD
          (JSNum.add (.fin 1) (JSNum.div r.profitMargin (.fin 100))) := by
  obtain ⟨cp, w, pr, d, s, pm, -, -, hpr, hd, hs, -, rfl⟩ := calculateLandedCost_inv h
  have h100 : (100 : ℚ) ≠ 0 := by norm_num
  have hda : (assemble eng p.excelStructure cp w pr d s pm q).dutiesAmountUSD
      = .fin (pr * (d / 100)) := by
    show JSNum.mul (.fin pr) (JSNum.div (.fin d) (.fin 100)) = _
    rw [JSNum.div_fin_of _ _ h100]
    rfl
  have hunit : (assemble eng p.excelStructure cp w pr d s pm q).unitPriceBBD
      = .fin (round2Q (u * eng.exchangeRate)) := by
    show round2 (JSNum.mul (assemble eng p.excelStructure cp w pr d s pm q).unitPriceUSD
      (.fin eng.exchangeRate)) = _
    rw [hu, JSNum.mul_fin, round2_fin]
  have htotal : (assemble eng p.excelStructure cp w pr d s pm q).totalPriceBBD
      = .fin (round2Q (u * eng.exchangeRate * q)) := by
    show round2 (JSNum.mul
      (JSNum.mul (assemble eng p.excelStructure cp w pr d s pm q).unitPriceUSD
        (.fin eng.exchangeRate)) (.fin q)) = _
    rw [hu, JSNum.mul_fin, JSNum.mul_fin, round2_fin]
  have hgross : (assemble eng p.excelStructure cp w pr d s pm q).totalGrossProfitBBD
      = .fin (round2Q
        (u * eng.exchangeRate * q - (pr + pr * (d / 100)) * eng.exchangeRate * q)) := by
    show round2 (JSNum.sub
      (JSNum.mul
        (JSNum.mul (assemble eng p.excelStructure cp w pr d s pm q).unitPriceUSD
          (.fin eng.exchangeRate)) (.fin q))
      (JSNum.mul
        (JSNum.mul
          (JSNum.add (.fin pr)
            (assemble eng p.excelStructure cp w pr d s pm q).dutiesAmountUSD)
          (.fin eng.exchangeRate)) (.fin q))) = _
    rw [hu, hda, JSNum.mul_fin, JSNum.mul_fin, JSNum.add_fin, JSNum.mul_fin, JSNum.mul_fin,
      JSNum.sub_fin, round2_fin, sub_eq_add_neg]
  refine ⟨pr, d, ⌊u * eng.exchangeRate * 100 + 1 / 2⌋,
    ⌊u * eng.exchangeRate * q * 100 + 1 / 2⌋,
    ⌊(u * eng.exchangeRate * q - (pr + pr * (d / 100)) * eng.exchangeRate * q) * 100
      + 1 / 2⌋,
    hpr, hd, hunit, round2Q_abs_sub_le _, htotal, round2Q_abs_sub_le _, hgross,
    round2Q_abs_sub_le _, hs, hda, rfl, rfl⟩

/-- C22 (amended), at the quotation for 300 notepads by DHL. -/
theorem rounded_outputs_of_finite_witness :
    calculateLandedCost engine notepads 300 "DHL" = .ok notepadsQuote ∧
    notepadsQuote.unitPriceUSD = .fin (5473 / 3000) ∧
    ∃ (pr d : ℚ) (k1 k2 k3 : ℤ),
      notepads.excelStructure.price = some pr ∧ notepads.excelStructure.duties = some d ∧
      notepadsQuote.unitPriceBBD = .fin ((k1 : ℚ) / 100) ∧
      |(k1 : ℚ) / 100 - 5473 / 3000 * engine.exchangeRate| ≤ 1 / 200 ∧
      notepadsQuote.totalPriceBBD = .fin ((k2 : ℚ) / 100) ∧
      |(k2 : ℚ) / 100 - 5473 / 3000 * engine.exchangeRate * 300| ≤ 1 / 200 ∧
      notepadsQuote.totalGrossProfitBBD = .fin ((k3 : ℚ) / 100) ∧
      |(k3 : ℚ) / 100
        - (5473 / 3000 * engine.exchangeRate * 300
          - (pr + pr * (d / 100)) * engine.exchangeRate * 300)|
        ≤ 1 / 200 ∧
      calculateShippingCost engine notepadsQuote.totalWeight "DHL"
        = .ok notepadsQuote.shippingCostUSD ∧
      notepadsQuote.dutiesAmountUSD = .fin (pr * (d / 100)) ∧
      notepadsQuote.landedCostPerUnitUSD =
        JSNum.add
          (JSNum.add (JSNum.add (.fin pr) notepadsQuote.dutiesAmountUSD)
            (JSNum.div notepadsQuote.shippingCostUSD (.fin 300)))
          (JSNum.div notepadsQuote.setupCostUSD (.fin 300)) ∧
      notepadsQuote.unitPriceUSD =
        JSNum.mul notepadsQuote.landedCostPerUnitUSD
          (JSNum.add (.fin 1) (JSNum.div notepadsQuote.profitMargin (.fin 100))) :=
  ⟨notepads_quote, rfl,
    rounded_outputs_of_finite engine notepads 300 "DHL" notepadsQuote (5473 / 3000)
      notepads_quote rfl⟩

/-! ## Both methods -/

/-- C23: `calculateAllPricing(product, quantity)` returns an object exactly when
both `calculateLandedCost(product, quantity, 'DHL')` and
`calculateLandedCost(product, quantity, 'SEA')` return one; its `byDHL` is the
result of the first call and its `bySEA` the result of the second, each
determined by its own call alone, together with the same quantity and the
product's name. It throws exactly when one of the two calls throws, with the
error of the first call that does. -/
theorem calculateAllPricing_both (eng : Engine) (p : Product) (q : ℚ) :
    (∀ a, calculateAllPricing eng p q = .ok a ↔
      (calculateLandedCost eng p q "DHL" = .ok a.byDHL ∧
        calculateLandedCost eng p q "SEA" = .ok a.bySEA ∧
        a.quantity = q ∧ a.productName = p.name)) ∧
    (∀ e, calculateAllPricing eng p q = .error e ↔
      (calculateLandedCost eng p q "DHL" = .error e ∨
        ∃ dhl, calculateLandedCost eng p q "DHL" = .ok dhl ∧
          calculateLandedCost eng p q "SEA" = .error e)) := by
  unfold calculateAllPricing
  cases h1 : calculateLandedCost eng p q "DHL" with
  | error e1 => simp [bind, Except.bind]
  | ok dhl =>
    cases h2 : calculateLandedCost eng p q "SEA" with
    | error e2 => simp [bind, Except.bind]
    | ok sea =>
      simp only [bind, Except.bind, pure, Except.pure]
      constructor
      · intro a
        constructor
        · intro h
          injection h with h
          subst h
          exact ⟨rfl, rfl, rfl, rfl⟩
        · rintro ⟨hd, hs, hq, hn⟩
          injection hd with hd
          injection hs with hs
          cases a
          simp only at hd hs hq hn
          subst hd hs hq hn
          rfl
      · intro e
        simp

/-! ## Duties -/

/-- C24: duties are charged per unit. Two results of `calculateLandedCost` for
the same product, whatever the quantities and the methods, carry the same
dutiesAmountUSD, which is price × (duties / 100). -/
theorem dutiesAmountUSD_per_unit (eng : Engine) (p : Product) (q1 q2 : ℚ)
    (m1 m2 : String) (r1 r2 : PricingResult)
    (h1 : calculateLandedCost eng p q1 m1 = .ok r1)
    (h2 : calculateLandedCost eng p q2 m2 = .ok r2) :
    ∃ price duties, p.excelStructure.price = some price ∧
      p.excelStructure.duties = some duties ∧
      r1.dutiesAmountUSD = .fin (price * (duties / 100)) ∧
      r2.dutiesAmountUSD = r1.dutiesAmountUSD := by
  obtain ⟨cp, w, pr, d, s, pm, -, -, hpr, hd, -, -, rfl⟩ := calculateLandedCost_inv h1
  obtain ⟨cp2, w2, pr2, d2, s2, pm2, -, -, hpr2, hd2, -, -, rfl⟩ := calculateLandedCost_inv h2
  rw [hpr] at hpr2
  rw [hd] at hd2
  injection hpr2 with hpr2
  injection hd2 with hd2
  subst hpr2 hd2
  have h100 : (100 : ℚ) ≠ 0 := by norm_num
  refine ⟨pr, d, hpr, hd, ?_, rfl⟩
  show JSNum.mul (.fin pr) (JSNum.div (.fin d) (.fin 100)) = _
  rw [JSNum.div_fin_of _ _ h100]
  rfl

/-- C24, at 300 notepads by DHL and 7 notepads by SEA. -/
theorem dutiesAmountUSD_per_unit_witness :
    ∃ r2, calculateLandedCost engine notepads 7 "SEA" = .ok r2 ∧
      calculateLandedCost engine notepads 300 "DHL" = .ok notepadsQuote ∧
      ∃ price duties, notepads.excelStructure.price = some price ∧
        notepads.excelStructure.duties = some duties ∧
        notepadsQuote.dutiesAmountUSD = .fin (price * (duties / 100)) ∧
        r2.dutiesAmountUSD = notepadsQuote.dutiesAmountUSD := by
  obtain ⟨s, -, hr2⟩ := calculateLandedCost_configured 7 notepads_fields
    (Or.inr rfl : "SEA" = "DHL" ∨ "SEA" = "SEA")
  exact ⟨_, hr2, notepads_quote,
    dutiesAmountUSD_per_unit engine notepads 300 7 "DHL" "SEA" notepadsQuote _
      notepads_quote hr2⟩

/-! ## Sign of the outputs -/

theorem effectiveMargin_nonneg (excel : ExcelStructure) {pm : ℚ} (h : 0 ≤ pm) :
    0 ≤ effectiveMargin excel pm := by
  unfold effectiveMargin
  cases excel.profitOverride with
  | none => exact h
  | some o =>
    by_cases ho : o > 0
    · simp [ho, ho.le]
    · simp [ho, h]

theorem round2Q_nonneg {a : ℚ} (h : 0 ≤ a) : 0 ≤ round2Q a := by
  have h0 : round2Q 0 = 0 := by
    rw [round2Q_eq_of 0 0 (by norm_num)]
    norm_num
  rw [← h0]
  exact round2Q_mono h

/-- C25: for every product that `validateProduct` accepts with setup cost >= 0,
every integer quantity > 0 and each of the methods DHL and SEA, the result is
finite with landedCostPerUnitUSD > 0, unitPriceUSD >= landedCostPerUnitUSD and
totalGrossProfitBBD >= 0. -/
theorem accepted_product_outputs_signs (p : Product) (quantity : ℤ) (m : String)
    (hv : (validateProduct p).isValid = true)
    (hsc : 0 ≤ p.excelStructure.setupCost.getD 0) (hq : 0 < quantity)
    (hm : m = "DHL" ∨ m = "SEA") :
    ∃ r landed unit gross, calculateLandedCost engine p (quantity : ℚ) m = .ok r ∧
      r.landedCostPerUnitUSD = .fin landed ∧ r.unitPriceUSD = .fin unit ∧
      r.totalGrossProfitBBD = .fin gross ∧
      0 < landed ∧ landed ≤ unit ∧ 0 ≤ gross := by
  obtain ⟨cp, w, pr, d, pm, hp, hcp, hw, hpr, hd, hpm⟩ := validateProduct_accepts hv
  obtain ⟨rate, minimum, hrm, hrate, hmin⟩ := configured_rate hm
  have hq0 : (0 : ℚ) < (quantity : ℚ) := by exact_mod_cast hq
  have hmg := effectiveMargin_nonneg p.excelStructure hpm
  have hS : 0 ≤ shippingQ rate minimum w cp quantity :=
    hmin.trans (shippingQ_minimum_le _ _ _ _ _)
  have hland : 0 < pr + pr * (d / 100) + shippingQ rate minimum w cp quantity / quantity
      + p.excelStructure.setupCost.getD 0 / quantity := by
    have h1 : 0 ≤ pr * (d / 100) := by positivity
    have h2 : 0 ≤ shippingQ rate minimum w cp quantity / quantity := div_nonneg hS hq0.le
    have h3 : 0 ≤ p.excelStructure.setupCost.getD 0 / quantity := div_nonneg hsc hq0.le
    linarith
  refine ⟨_, _, _, _, calculateLandedCost_finite (quantity : ℚ) hp hrm hcp.ne' hq0.ne',
    rfl, rfl, rfl, hland, ?_, ?_⟩
  · unfold unitPriceQ
    have hfac : 1 ≤ 1 + effectiveMargin p.excelStructure pm / 100 := by
      have : 0 ≤ effectiveMargin p.excelStructure pm / 100 := by positivity
      linarith
    exact le_mul_of_one_le_right hland.le hfac
  · apply round2Q_nonneg
    rw [mul_right_comm _ (202 / 100 : ℚ) (quantity : ℚ),
      unitPriceQ_mul_quantity _ _ _ _ _ _ _ _ _ hq0.ne']
    have hbase : 0 ≤ pr + pr * (d / 100) := by positivity
    have hbq : 0 ≤ (pr + pr * (d / 100)) * (quantity : ℚ) := mul_nonneg hbase hq0.le
    have hfac : 1 ≤ 1 + effectiveMargin p.excelStructure pm / 100 := by
      have : 0 ≤ effectiveMargin p.excelStructure pm / 100 := by positivity
      linarith
    have hsum : (pr + pr * (d / 100)) * (quantity : ℚ)
        ≤ ((pr + pr * (d / 100)) * (quantity : ℚ) + shippingQ rate minimum w cp quantity
          + p.excelStructure.setupCost.getD 0)
          * (1 + effectiveMargin p.excelStructure pm / 100) := by
      have h1 : (pr + pr * (d / 100)) * (quantity : ℚ)
          ≤ (pr + pr * (d / 100)) * (quantity : ℚ) + shippingQ rate minimum w cp quantity
            + p.excelStructure.setupCost.getD 0 := by linarith
      exact h1.trans (le_mul_of_one_le_right (by linarith) hfac)
    have hex := mul_le_mul_of_nonneg_right hsum (by norm_num : (0 : ℚ) ≤ 202 / 100)
    linarith

/-- C25, at 300 notepads by DHL. -/
theorem accepted_product_outputs_signs_witness :
    ∃ r landed unit gross, calculateLandedCost engine notepads ((300 : ℤ) : ℚ) "DHL" = .ok r ∧
      r.landedCostPerUnitUSD = .fin landed ∧ r.unitPriceUSD = .fin unit ∧
      r.totalGrossProfitBBD = .fin gross ∧
      0 < landed ∧ landed ≤ unit ∧ 0 ≤ gross :=
  accepted_product_outputs_signs notepads 300 "DHL"
    (by
      rw [validateProduct_isValid_conds]
      simp [notepads, absentOrNotPositive, absentOrNegative])
    (by simp [notepads]) (by norm_num) (Or.inl rfl)

/-! ## Gross profit at zero margin -/

theorem degenerate_fields : HasCostFields degenerate 0 0 1 0 0 :=
  ⟨rfl, rfl, rfl, rfl, rfl⟩

/-- The result for one unit of the degenerate product by DHL. -/
theorem degenerate_quote :
    ∃ r, calculateLandedCost engine degenerate 1 "DHL" = .ok r ∧
      r.shippingCostUSD = .nan ∧ r.unitPriceBBD = .nan ∧ r.totalPriceBBD = .nan ∧
      r.totalGrossProfitBBD = .nan := by
  have hs : calculateShippingCost engine
      (JSNum.mul (JSNum.ceil (JSNum.div (.fin 1) (.fin 0))) (.fin 0)) "DHL" = .ok .nan := by
    rw [calculateShippingCost_DHL]
    simp [JSNum.div, JSNum.ceil, JSNum.mul, JSNum.infTimes, JSNum.max]
  refine ⟨_, calculateLandedCost_ok degenerate_fields.casePack degenerate_fields.weight
    degenerate_fields.price degenerate_fields.duties hs
    (selectMargin_of_profitMargin degenerate_fields.profitMargin), rfl, ?_, ?_, ?_⟩ <;>
  simp [assemble, degenerate, JSNum.div, JSNum.add, JSNum.mul, JSNum.sub, JSNum.neg,
    JSNum.round, round2]

/-- C26 (counterexample): for the product with case pack size 0 and carton
weight 0, margin 0 and no setup cost, one unit by DHL: the reported gross
profit is `NaN`, not a strictly positive amount. -/
theorem gross_profit_nan_at_zero_margin :
    effectiveMargin degenerate.excelStructure 0 = 0 ∧
    0 ≤ degenerate.excelStructure.setupCost.getD 0 ∧
    ∃ r, calculateLandedCost engine degenerate 1 "DHL" = .ok r ∧
      r.totalGrossProfitBBD = .nan ∧
      ¬ ∃ g : ℚ, r.totalGrossProfitBBD = .fin g ∧ 0 < g := by
  obtain ⟨r, hr, -, -, -, hg⟩ := degenerate_quote
  refine ⟨rfl, by simp [degenerate], r, hr, hg, ?_⟩
  rintro ⟨g, h, -⟩
  rw [hg] at h
  cases h

/-- At margin 0 the rational under the last rounding is the shipping cost plus
the setup cost, in BBD. -/
theorem gross_unrounded_at_zero_margin (rate minimum cp w pr d sc ex q : ℚ) (hq : q ≠ 0) :
    unitPriceQ rate minimum cp w pr d sc 0 q * ex * q + -((pr + pr * (d / 100)) * ex * q)
      = (shippingQ rate minimum w cp q + sc) * ex := by
  rw [mul_right_comm _ ex q, unitPriceQ_mul_quantity _ _ _ _ _ _ _ _ _ hq]
  ring

/-- C26 (amended): pass-through counted as profit. For every product carrying
the cost fields whose effective margin is 0 and whose case pack size is not 0,
every quantity > 0 and each of the methods DHL and SEA, totalGrossProfitBBD is
a multiple of 0.01 that differs from (shippingCostUSD + setupCostUSD) ×
exchangeRate by at most 0.005; so with setup cost >= 0 the reported gross
profit is at least the shipping minimum times the exchange rate, hence strictly
positive although the margin is zero. Which of the two nearest cents is
returned when that amount lies at half a cent is not stated: it depends on the
rounding of the intermediate products and quotients. -/
theorem zero_margin_gross_profit (p : Product) (cp w pr d pm q : ℚ) (m : String)
    (hp : HasCostFields p cp w pr d pm)
    (hmg : effectiveMargin p.excelStructure pm = 0) (hcp : cp ≠ 0) (hq : 0 < q)
    (hm : m = "DHL" ∨ m = "SEA") :
    ∃ (r : PricingResult) (shipping setup gross minimum : ℚ) (k : ℤ),
      calculateLandedCost engine p q m = .ok r ∧
      ((m = "DHL" ∧ minimum = 25) ∨ (m = "SEA" ∧ minimum = 15)) ∧
      r.shippingCostUSD = .fin shipping ∧ minimum ≤ shipping ∧
      r.setupCostUSD = .fin setup ∧ r.exchangeRate = .fin (202 / 100) ∧
      r.totalGrossProfitBBD = .fin gross ∧ gross = (k : ℚ) / 100 ∧
      |gross - (shipping + setup) * (202 / 100)| ≤ 1 / 200 ∧
      (0 ≤ setup → minimum * (202 / 100) ≤ gross ∧ 0 < gross) := by
  obtain ⟨rate, minimum, hrm, -, -⟩ := configured_rate hm
  have hfin := calculateLandedCost_finite q hp hrm hcp hq.ne'
  rw [hmg] at hfin
  have hmin2 : (m = "DHL" ∧ minimum = 25) ∨ (m = "SEA" ∧ minimum = 15) := by
    rcases hrm with ⟨h1, -, h2⟩ | ⟨h1, -, h2⟩
    · exact Or.inl ⟨h1, h2⟩
    · exact Or.inr ⟨h1, h2⟩
  have hround : round2Q (minimum * (202 / 100)) = minimum * (202 / 100) := by
    rcases hrm with ⟨-, -, h2⟩ | ⟨-, -, h2⟩
    · rw [h2, round2Q_eq_of _ 5050 (by norm_num)]
      norm_num
    · rw [h2, round2Q_eq_of _ 3030 (by norm_num)]
      norm_num
  have hpos : 0 < minimum * (202 / 100) := by
    rcases hrm with ⟨-, -, h2⟩ | ⟨-, -, h2⟩ <;> rw [h2] <;> norm_num
  have hS := shippingQ_minimum_le rate minimum w cp q
  have hgross : (finiteQuote rate minimum (202 / 100) cp w pr d
        (p.excelStructure.setupCost.getD 0) (p.excelStructure.profitOverride.getD 0)
        0 q).totalGrossProfitBBD
      = .fin (round2Q ((shippingQ rate minimum w cp q
          + p.excelStructure.setupCost.getD 0) * (202 / 100))) := by
    show JSNum.fin (round2Q
      (unitPriceQ rate minimum cp w pr d (p.excelStructure.setupCost.getD 0) 0 q
          * (202 / 100) * q
        + -((pr + pr * (d / 100)) * (202 / 100) * q))) = _
    rw [gross_unrounded_at_zero_margin _ _ _ _ _ _ _ _ _ hq.ne']
  refine ⟨_, shippingQ rate minimum w cp q, p.excelStructure.setupCost.getD 0, _, minimum,
    ⌊(shippingQ rate minimum w cp q + p.excelStructure.setupCost.getD 0) * (202 / 100) * 100
      + 1 / 2⌋,
    hfin, hmin2, rfl, hS, rfl, rfl, hgross, rfl, round2Q_abs_sub_le _, ?_⟩
  intro hsc
  have hge : minimum * (202 / 100)
      ≤ round2Q ((shippingQ rate minimum w cp q + p.excelStructure.setupCost.getD 0)
        * (202 / 100)) := by
    rw [← hround]
    apply round2Q_mono
    apply mul_le_mul_of_nonneg_right _ (by norm_num)
    linarith
  exact ⟨hge, lt_of_lt_of_le hpos hge⟩

/-- C26 (amended), at 200 units of the pass-through product by DHL, where the
amount (38.25 + 0) × 2.02 = 77.265 lies at half a cent. -/
theorem zero_margin_gross_profit_witness :
    effectiveMargin passThrough.excelStructure 0 = 0 ∧ (12 : ℚ) ≠ 0 ∧ (0 : ℚ) < 200 ∧
    ∃ (r : PricingResult) (shipping setup gross minimum : ℚ) (k : ℤ),
      calculateLandedCost engine passThrough 200 "DHL" = .ok r ∧
      (("DHL" = "DHL" ∧ minimum = 25) ∨ ("DHL" = "SEA" ∧ minimum = 15)) ∧
      r.shippingCostUSD = .fin shipping ∧ minimum ≤ shipping ∧
      r.setupCostUSD = .fin setup ∧ r.exchangeRate = .fin (202 / 100) ∧
      r.totalGrossProfitBBD = .fin gross ∧ gross = (k : ℚ) / 100 ∧
      |gross - (shipping + setup) * (202 / 100)| ≤ 1 / 200 ∧
      (0 ≤ setup → minimum * (202 / 100) ≤ gross ∧ 0 < gross) :=
  ⟨rfl, by norm_num, by norm_num,
    zero_margin_gross_profit passThrough 12 15 (8 / 100) 0 0 200 "DHL"
      ⟨rfl, rfl, rfl, rfl, rfl⟩ rfl (by norm_num) (by norm_num) (Or.inl rfl)⟩

/-! ## Across a carton boundary -/

theorem heavy_fields : HasCostFields heavy 100 200 1 0 0 :=
  ⟨rfl, rfl, rfl, rfl, rfl⟩

/-- C27: the unit price is not monotone across a carton boundary. For the valid
product with case pack 100, carton weight 200, price 1, duties 0 and margin 0,
by DHL: 100 units need 1 carton, cost 30 to ship and are quoted at 2.63 BBD
each; 101 units need 2 cartons, cost 60 to ship (both above the minimum charge
25) and are quoted at 3.22 BBD each, strictly more. -/
theorem unitPriceBBD_rises_across_carton_boundary :
    (validateProduct heavy).isValid = true ∧
    ∃ r1 r2, calculateLandedCost engine heavy 100 "DHL" = .ok r1 ∧
      calculateLandedCost engine heavy (100 + 1) "DHL" = .ok r2 ∧
      r1.cartons = .fin 1 ∧ r2.cartons = .fin 2 ∧
      r1.shippingCostUSD = .fin 30 ∧ r2.shippingCostUSD = .fin 60 ∧ (25 : ℚ) < 30 ∧
      r1.unitPriceBBD = .fin (263 / 100) ∧ r2.unitPriceBBD = .fin (322 / 100) ∧
      (263 / 100 : ℚ) < 322 / 100 := by
  have hv : (validateProduct heavy).isValid = true := by
    rw [validateProduct_isValid_conds]
    simp [heavy, absentOrNotPositive, absentOrNegative]
  have hc1 : ⌈(100 : ℚ) / 100⌉ = 1 := by
    rw [Int.ceil_eq_iff]
    norm_num
  have hc2 : ⌈((100 : ℚ) + 1) / 100⌉ = 2 := by
    rw [Int.ceil_eq_iff]
    norm_num
  have hs1 : shippingQ (15 / 100) 25 200 100 100 = 30 := by
    unfold shippingQ
    rw [hc1]
    norm_num
  have hs2 : shippingQ (15 / 100) 25 200 100 (100 + 1) = 60 := by
    unfold shippingQ
    rw [hc2]
    norm_num
  have hu1 : unitPriceQ (15 / 100) 25 100 200 1 0 0 0 100 = 13 / 10 := by
    unfold unitPriceQ
    rw [hs1]
    norm_num
  have hu2 : unitPriceQ (15 / 100) 25 100 200 1 0 0 0 (100 + 1) = 161 / 101 := by
    unfold unitPriceQ
    rw [hs2]
    norm_num
  have hr1 := calculateLandedCost_finite 100 heavy_fields
    (Or.inl ⟨rfl, rfl, rfl⟩) (by norm_num) (by norm_num)
  have hr2 := calculateLandedCost_finite (100 + 1) heavy_fields
    (Or.inl ⟨rfl, rfl, rfl⟩) (by norm_num) (by norm_num)
  refine ⟨hv, _, _, hr1, hr2, ?_, ?_, ?_, ?_, by norm_num, ?_, ?_, by norm_num⟩
  · show JSNum.fin ((⌈(100 : ℚ) / 100⌉ : ℤ) : ℚ) = _
    rw [hc1]
    norm_num
  · show JSNum.fin ((⌈((100 : ℚ) + 1) / 100⌉ : ℤ) : ℚ) = _
    rw [hc2]
    norm_num
  · show JSNum.fin (shippingQ (15 / 100) 25 200 100 100) = _
    rw [hs1]
  · show JSNum.fin (shippingQ (15 / 100) 25 200 100 (100 + 1)) = _
    rw [hs2]
  · show JSNum.fin (round2Q (unitPriceQ (15 / 100) 25 100 200 1 0 0 0 100 * (202 / 100))) = _
    rw [hu1, round2Q_eq_of _ 263 (by norm_num)]
    norm_num
  · show JSNum.fin
      (round2Q (unitPriceQ (15 / 100) 25 100 200 1 0 0 0 (100 + 1) * (202 / 100))) = _
    rw [hu2, round2Q_eq_of _ 322 (by norm_num)]
    norm_num

/-! ## Sea freight against DHL -/

/-- C28: for every product with carton weight >= 0 and effective margin >= 0,
and every integer quantity > 0 with case pack > 0, `calculateAllPricing`
returns both results, all finite, and the SEA result has shippingCostUSD,
landedCostPerUnitUSD, unitPriceBBD and totalPriceBBD each <= the corresponding
value of the DHL result. -/
theorem sea_not_dearer_than_dhl (p : Product) (cp w pr d pm : ℚ) (quantity : ℤ)
    (hp : HasCostFields p cp w pr d pm) (hw : 0 ≤ w)
    (hmg : 0 ≤ effectiveMargin p.excelStructure pm) (hq : 0 < quantity) (hcp : 0 < cp) :
    ∃ a, calculateAllPricing engine p (quantity : ℚ) = .ok a ∧
      ∃ s1 s2 l1 l2 u1 u2 t1 t2 : ℚ,
        a.bySEA.shippingCostUSD = .fin s1 ∧ a.byDHL.shippingCostUSD = .fin s2 ∧ s1 ≤ s2 ∧
        a.bySEA.landedCostPerUnitUSD = .fin l1 ∧ a.byDHL.landedCostPerUnitUSD = .fin l2 ∧
        l1 ≤ l2 ∧
        a.bySEA.unitPriceBBD = .fin u1 ∧ a.byDHL.unitPriceBBD = .fin u2 ∧ u1 ≤ u2 ∧
        a.bySEA.totalPriceBBD = .fin t1 ∧ a.byDHL.totalPriceBBD = .fin t2 ∧ t1 ≤ t2 := by
  have hq0 : (0 : ℚ) < (quantity : ℚ) := by exact_mod_cast hq
  have hdhl := calculateLandedCost_finite (quantity : ℚ) hp
    (Or.inl ⟨rfl, rfl, rfl⟩ : ("DHL" = "DHL" ∧ (15 / 100 : ℚ) = 15 / 100 ∧ (25 : ℚ) = 25) ∨
      ("DHL" = "SEA" ∧ (15 / 100 : ℚ) = 8 / 100 ∧ (25 : ℚ) = 15)) hcp.ne' hq0.ne'
  have hsea := calculateLandedCost_finite (quantity : ℚ) hp
    (Or.inr ⟨rfl, rfl, rfl⟩ : ("SEA" = "DHL" ∧ (8 / 100 : ℚ) = 15 / 100 ∧ (15 : ℚ) = 25) ∨
      ("SEA" = "SEA" ∧ (8 / 100 : ℚ) = 8 / 100 ∧ (15 : ℚ) = 15)) hcp.ne' hq0.ne'
  have hcart : (0 : ℚ) ≤ ((⌈(quantity : ℚ) / cp⌉ : ℤ) : ℚ) := by
    have : (0 : ℤ) ≤ ⌈(quantity : ℚ) / cp⌉ := Int.ceil_nonneg (div_nonneg hq0.le hcp.le)
    exact_mod_cast this
  have hS : shippingQ (8 / 100) 15 w cp quantity ≤ shippingQ (15 / 100) 25 w cp quantity := by
    unfold shippingQ
    exact max_le_max
      (mul_le_mul_of_nonneg_left (by norm_num) (mul_nonneg hcart hw)) (by norm_num)
  have hL : pr + pr * (d / 100) + shippingQ (8 / 100) 15 w cp quantity / quantity
        + p.excelStructure.setupCost.getD 0 / quantity
      ≤ pr + pr * (d / 100) + shippingQ (15 / 100) 25 w cp quantity / quantity
        + p.excelStructure.setupCost.getD 0 / quantity := by
    have := div_le_div_of_nonneg_right hS hq0.le
    linarith
  have hfac : 0 ≤ 1 + effectiveMargin p.excelStructure pm / 100 := by positivity
  have hU : unitPriceQ (8 / 100) 15 cp w pr d (p.excelStructure.setupCost.getD 0)
        (effectiveMargin p.excelStructure pm) quantity
      ≤ unitPriceQ (15 / 100) 25 cp w pr d (p.excelStructure.setupCost.getD 0)
        (effectiveMargin p.excelStructure pm) quantity := by
    unfold unitPriceQ
    exact mul_le_mul_of_nonneg_right hL hfac
  have hB := mul_le_mul_of_nonneg_right hU (by norm_num : (0 : ℚ) ≤ 202 / 100)
  have hT := mul_le_mul_of_nonneg_right hB hq0.le
  exact ⟨_, calculateAllPricing_ok hdhl hsea, _, _, _, _, _, _, _, _,
    rfl, rfl, hS, rfl, rfl, hL, rfl, rfl, round2Q_mono hB, rfl, rfl, round2Q_mono hT⟩

/-- C28, at 300 notepads. -/
theorem sea_not_dearer_than_dhl_witness :
    ∃ a, calculateAllPricing engine notepads ((300 : ℤ) : ℚ) = .ok a ∧
      ∃ s1 s2 l1 l2 u1 u2 t1 t2 : ℚ,
        a.bySEA.shippingCostUSD = .fin s1 ∧ a.byDHL.shippingCostUSD = .fin s2 ∧ s1 ≤ s2 ∧
        a.bySEA.landedCostPerUnitUSD = .fin l1 ∧ a.byDHL.landedCostPerUnitUSD = .fin l2 ∧
        l1 ≤ l2 ∧
        a.bySEA.unitPriceBBD = .fin u1 ∧ a.byDHL.unitPriceBBD = .fin u2 ∧ u1 ≤ u2 ∧
        a.bySEA.totalPriceBBD = .fin t1 ∧ a.byDHL.totalPriceBBD = .fin t2 ∧ t1 ≤ t2 :=
  sea_not_dearer_than_dhl notepads 100 15 (110 / 100) 20 30 300 notepads_fields
    (by norm_num) (by simp [effectiveMargin, notepads]) (by norm_num) (by norm_num)

/-! ## The two quoted prices -/

/-- The two rounded prices of a result whose unit price in USD is finite. -/
theorem rounded_prices_of_finite {eng : Engine} {p : Product} {q : ℚ} {m : String}
    {r : PricingResult} {u : ℚ} (h : calculateLandedCost eng p q m = .ok r)
    (hu : r.unitPriceUSD = .fin u) :
    r.unitPriceBBD = .fin (round2Q (u * eng.exchangeRate)) ∧
    r.totalPriceBBD = .fin (round2Q (u * eng.exchangeRate * q)) := by
  obtain ⟨cp, w, pr, d, s, pm, -, -, -, -, -, -, rfl⟩ := calculateLandedCost_inv h
  constructor
  · show round2 (JSNum.mul (assemble eng p.excelStructure cp w pr d s pm q).unitPriceUSD
      (.fin eng.exchangeRate)) = _
    rw [hu, JSNum.mul_fin, round2_fin]
  · show round2 (JSNum.mul
      (JSNum.mul (assemble eng p.excelStructure cp w pr d s pm q).unitPriceUSD
        (.fin eng.exchangeRate)) (.fin q)) = _
    rw [hu, JSNum.mul_fin, JSNum.mul_fin, round2_fin]

/-- C29 (counterexample): for one unit of the product with case pack size 0 and
carton weight 0 by DHL a result is returned whose totalPriceBBD and
unitPriceBBD are `NaN`, so that the bound does not hold of them. -/
theorem rounding_gap_fails_on_nan :
    ∃ r, calculateLandedCost engine degenerate ((1 : ℤ) : ℚ) "DHL" = .ok r ∧
      r.totalPriceBBD = .nan ∧ r.unitPriceBBD = .nan ∧
      ¬ ∃ t v : ℚ, r.totalPriceBBD = .fin t ∧ r.unitPriceBBD = .fin v ∧
        |t - 1 * v| ≤ 1 / 200 * 1 + 1 / 200 := by
  obtain ⟨r, hr, -, hu, ht, -⟩ := degenerate_quote
  refine ⟨r, by exact_mod_cast hr, ht, hu, ?_⟩
  rintro ⟨t, v, h, -, -⟩
  rw [ht] at h
  cases h

/-- C29 (amended): for every input with integer quantity q >= 1 on which
`calculateLandedCost` returns a result whose unitPriceUSD is finite,
|totalPriceBBD − q × unitPriceBBD| <= 0.005 × q + 0.005; and the returned
total is not in general the returned unit price times the quantity (in the
scenario, 1105.55 against 300 × 3.69). -/
theorem rounding_gap_bound (eng : Engine) (p : Product) (q : ℤ) (m : String)
    (r : PricingResult) (u : ℚ) (h : calculateLandedCost eng p (q : ℚ) m = .ok r)
    (hq : 1 ≤ q) (hu : r.unitPriceUSD = .fin u) :
    (∃ t v : ℚ, r.totalPriceBBD = .fin t ∧ r.unitPriceBBD = .fin v ∧
      |t - (q : ℚ) * v| ≤ 1 / 200 * (q : ℚ) + 1 / 200) ∧
    ∃ r0 t0 v0, calculateLandedCost engine scenario 300 "DHL" = .ok r0 ∧
      r0.totalPriceBBD = .fin t0 ∧ r0.unitPriceBBD = .fin v0 ∧ t0 ≠ 300 * v0 := by
  constructor
  · obtain ⟨hv, ht⟩ := rounded_prices_of_finite h hu
    refine ⟨_, _, ht, hv, ?_⟩
    have hq0 : (1 : ℚ) ≤ (q : ℚ) := by exact_mod_cast hq
    have h1 := abs_le.mp (round2Q_abs_sub_le (u * eng.exchangeRate * (q : ℚ)))
    have h2 := abs_le.mp (round2Q_abs_sub_le (u * eng.exchangeRate))
    rw [abs_le]
    constructor
    · nlinarith [h1.1, h1.2, h2.1, h2.2]
    · nlinarith [h1.1, h1.2, h2.1, h2.2]
  · refine ⟨notepadsQuote, _, _, scenario_quote ⟨rfl, rfl, rfl, rfl, rfl⟩ rfl rfl,
      rfl, rfl, ?_⟩
    norm_num

/-- C29 (amended), at the quotation for 300 notepads by DHL. -/
theorem rounding_gap_bound_witness :
    calculateLandedCost engine notepads ((300 : ℤ) : ℚ) "DHL" = .ok notepadsQuote ∧
    (1 : ℤ) ≤ 300 ∧ notepadsQuote.unitPriceUSD = .fin (5473 / 3000) ∧
    (∃ t v : ℚ, notepadsQuote.totalPriceBBD = .fin t ∧ notepadsQuote.unitPriceBBD = .fin v ∧
      |t - ((300 : ℤ) : ℚ) * v| ≤ 1 / 200 * ((300 : ℤ) : ℚ) + 1 / 200) ∧
    ∃ r0 t0 v0, calculateLandedCost engine scenario 300 "DHL" = .ok r0 ∧
      r0.totalPriceBBD = .fin t0 ∧ r0.unitPriceBBD = .fin v0 ∧ t0 ≠ 300 * v0 :=
  have hq : calculateLandedCost engine notepads ((300 : ℤ) : ℚ) "DHL" = .ok notepadsQuote := by
    exact_mod_cast notepads_quote
  ⟨hq, by norm_num, rfl,
    rounding_gap_bound engine notepads 300 "DHL" notepadsQuote (5473 / 3000) hq
      (by norm_num) rfl⟩

end PricingEngine
